import Mathlib

/-!
Verification of the ET0 (reference evapotranspiration) estimation engine of
the dash-ae-ufob repository.

The engine lives in two near-duplicate JavaScript implementations:

* `src/api/et0-calculator.js` — class `ET0Calculator` with the tiered method
  selector `selectBestMethod` (Penman-Monteith FAO-56, Hargreaves-Samani,
  Priestley-Taylor, temperature-only fallback);
* `src/unnamed/part_000` — object `FieldClimateAPI` with the simpler selector
  `selectET0CalculationMethod` and the quality grader `assessDataQuality`,
  plus the serverless handler `calculateET0` with its seasonal fallback.

Modelling conventions:

* JavaScript numbers are idealised as real numbers extended with an explicit
  `NaN` element (`JsVal.nan`).  JavaScript float arithmetic never throws; an
  operation whose mathematical result is undefined (square root of a negative
  number, `acos` outside `[-1, 1]`, `pow` with negative base) yields `NaN`,
  and `NaN` propagates through every arithmetic operation, including
  `Math.max`.  Division by zero yields `±Infinity` in JavaScript; it is
  collapsed to `nan` here and is unreachable on every code path analysed
  below (all divisors are nonzero constants or provably nonzero terms).
* A JS function that may `throw` is modelled in `Except Unit`; a function
  whose body cannot throw is a plain function (or an `Except` that is
  provably always `.ok`, when its error behaviour is itself under study).
* Absent object fields (`undefined`/`null`) are modelled as `Option ℝ` with
  `none`; coercion of an absent field into arithmetic yields `NaN`, exactly
  as `undefined` does in JavaScript.  JS truthiness tests on numeric fields
  (`if (x)`) are `false` for `undefined` and for `0`.
* `parseFloat(x.toFixed(k))` is modelled as rounding to `k` decimals with
  ties away from the smaller value (the ECMA-262 `toFixed` tie rule, which
  coincides with Mathlib's `round`), `NaN` mapping to `NaN`.
* The display strings stored in `usedParams` are elided; only the keys of
  the object are kept (as a `List String`), which is all that the quality
  grader `assessDataQuality` and the analysed claims inspect.
* The wall clock enters the engine only through `getJulianDay()` (day of
  year) inside `selectBestMethod`, and through `new Date().getMonth()` in
  the seasonal fallback of `calculateET0`.  Both reads are made explicit
  parameters (`jdNow : ℝ`, `month : ℕ`).
-/

noncomputable section

open Real

/-- A JavaScript number: an idealised real, or `NaN`. -/
inductive JsVal where
  | nan : JsVal
  | num : ℝ → JsVal
  deriving DecidableEq

namespace JsVal

/-- Addition; `NaN` propagates. -/
def jsAdd : JsVal → JsVal → JsVal
  | num a, num b => num (a + b)
  | _, _ => nan

/-- Subtraction; `NaN` propagates. -/
def jsSub : JsVal → JsVal → JsVal
  | num a, num b => num (a - b)
  | _, _ => nan

/-- Multiplication; `NaN` propagates. -/
def jsMul : JsVal → JsVal → JsVal
  | num a, num b => num (a * b)
  | _, _ => nan

/-- Division; `NaN` propagates.  JavaScript returns `±Infinity` for a zero
divisor; that case is collapsed to `nan` and is unreachable in the code
paths analysed here (every reachable divisor is nonzero). -/
def jsDiv : JsVal → JsVal → JsVal
  | num a, num b => if b = 0 then nan else num (a / b)
  | _, _ => nan

/-- Unary minus. -/
def jsNeg : JsVal → JsVal
  | num a => num (-a)
  | nan => nan

/-- `Math.sqrt`: `NaN` for negative arguments. -/
def jsSqrt : JsVal → JsVal
  | num a => if 0 ≤ a then num (Real.sqrt a) else nan
  | nan => nan

/-- `Math.exp`. -/
def jsExp : JsVal → JsVal
  | num a => num (Real.exp a)
  | nan => nan

/-- `Math.sin`. -/
def jsSin : JsVal → JsVal
  | num a => num (Real.sin a)
  | nan => nan

/-- `Math.cos`. -/
def jsCos : JsVal → JsVal
  | num a => num (Real.cos a)
  | nan => nan

/-- `Math.tan`.  (JavaScript never hits an exact pole of `tan`; Mathlib's
total `Real.tan` is used, and no analysed path evaluates `tan` at a pole.) -/
def jsTan : JsVal → JsVal
  | num a => num (Real.tan a)
  | nan => nan

/-- `Math.acos`: `NaN` outside `[-1, 1]`. -/
def jsAcos : JsVal → JsVal
  | num a => if -1 ≤ a ∧ a ≤ 1 then num (Real.arccos a) else nan
  | nan => nan

/-- `Math.pow`.  Faithful for nonnegative bases (the only reachable numeric
case in this code); JavaScript's negative-base/non-integer-exponent result
`NaN` is kept, and the remaining negative-base integer-exponent corner —
never reached with a negative base here — is also collapsed to `nan`. -/
def jsPow : JsVal → JsVal → JsVal
  | num a, num b => if 0 ≤ a then num (a ^ b) else nan
  | _, _ => nan

/-- `Math.max(a, b)`: `NaN` propagates (as in JavaScript). -/
def jsMax : JsVal → JsVal → JsVal
  | num a, num b => num (max a b)
  | _, _ => nan

/-- `Math.min(a, b)`: `NaN` propagates. -/
def jsMin : JsVal → JsVal → JsVal
  | num a, num b => num (min a b)
  | _, _ => nan

/-- `parseFloat(x.toFixed(2))`: round to two decimals, `NaN` maps to `NaN`. -/
def jsToFixed2 : JsVal → JsVal
  | num a => num ((round (a * 100) : ℤ) / 100)
  | nan => nan

/-- `parseFloat(x.toFixed(1))`: round to one decimal, `NaN` maps to `NaN`. -/
def jsToFixed1 : JsVal → JsVal
  | num a => num ((round (a * 10) : ℤ) / 10)
  | nan => nan

/-- JavaScript `a || b` on numbers: `a` unless `a` is falsy
(`undefined`, `0` or `NaN`). -/
def jsOr : JsVal → JsVal → JsVal
  | num a, b => if a = 0 then b else num a
  | nan, b => b

/-- True exactly on ordinary numbers (not `NaN`). -/
def isNum : JsVal → Bool
  | num _ => true
  | nan => false

/-- The value is a number that is `≥ 0` (false on `NaN`, as in JavaScript,
where `NaN >= 0` is false). -/
def jsNonneg : JsVal → Prop
  | num a => 0 ≤ a
  | nan => False

@[simp] theorem jsAdd_num_num (a b : ℝ) : jsAdd (num a) (num b) = num (a + b) := rfl
@[simp] theorem jsAdd_nan_left (v : JsVal) : jsAdd nan v = nan := by cases v <;> rfl
@[simp] theorem jsAdd_nan_right (v : JsVal) : jsAdd v nan = nan := by cases v <;> rfl
@[simp] theorem jsSub_num_num (a b : ℝ) : jsSub (num a) (num b) = num (a - b) := rfl
@[simp] theorem jsSub_nan_left (v : JsVal) : jsSub nan v = nan := by cases v <;> rfl
@[simp] theorem jsSub_nan_right (v : JsVal) : jsSub v nan = nan := by cases v <;> rfl
@[simp] theorem jsMul_num_num (a b : ℝ) : jsMul (num a) (num b) = num (a * b) := rfl
@[simp] theorem jsMul_nan_left (v : JsVal) : jsMul nan v = nan := by cases v <;> rfl
@[simp] theorem jsMul_nan_right (v : JsVal) : jsMul v nan = nan := by cases v <;> rfl
@[simp] theorem jsNeg_num (a : ℝ) : jsNeg (num a) = num (-a) := rfl
@[simp] theorem jsDiv_nan_left (v : JsVal) : jsDiv nan v = nan := by cases v <;> rfl
@[simp] theorem jsDiv_nan_right (v : JsVal) : jsDiv v nan = nan := by cases v <;> rfl
@[simp] theorem jsSqrt_nan : jsSqrt nan = nan := rfl
@[simp] theorem jsExp_num (a : ℝ) : jsExp (num a) = num (Real.exp a) := rfl
@[simp] theorem jsSin_num (a : ℝ) : jsSin (num a) = num (Real.sin a) := rfl
@[simp] theorem jsCos_num (a : ℝ) : jsCos (num a) = num (Real.cos a) := rfl
@[simp] theorem jsTan_num (a : ℝ) : jsTan (num a) = num (Real.tan a) := rfl
@[simp] theorem jsMax_num_num (a b : ℝ) : jsMax (num a) (num b) = num (max a b) := rfl
@[simp] theorem jsMax_nan_right (v : JsVal) : jsMax v nan = nan := by cases v <;> rfl
@[simp] theorem jsMax_nan_left (v : JsVal) : jsMax nan v = nan := by cases v <;> rfl
@[simp] theorem jsToFixed2_nan : jsToFixed2 nan = nan := rfl
@[simp] theorem jsToFixed2_num (a : ℝ) :
    jsToFixed2 (num a) = num ((round (a * 100) : ℤ) / 100) := rfl
@[simp] theorem jsToFixed1_nan : jsToFixed1 nan = nan := rfl
@[simp] theorem jsToFixed1_num (a : ℝ) :
    jsToFixed1 (num a) = num ((round (a * 10) : ℤ) / 10) := rfl
@[simp] theorem jsOr_nan (b : JsVal) : jsOr nan b = b := rfl

theorem jsDiv_num_num_of_ne (a b : ℝ) (hb : b ≠ 0) :
    jsDiv (num a) (num b) = num (a / b) := by simp [jsDiv, hb]

theorem jsSqrt_num_of_nonneg {a : ℝ} (h : 0 ≤ a) :
    jsSqrt (num a) = num (Real.sqrt a) := by simp [jsSqrt, h]

theorem jsSqrt_num_of_neg {a : ℝ} (h : a < 0) : jsSqrt (num a) = nan := by
  simp [jsSqrt, not_le.mpr h]

theorem jsAcos_num_of_mem {a : ℝ} (h₁ : -1 ≤ a) (h₂ : a ≤ 1) :
    jsAcos (num a) = num (Real.arccos a) := by simp [jsAcos, h₁, h₂]

theorem jsOr_num_of_ne {a : ℝ} (b : JsVal) (h : a ≠ 0) :
    jsOr (num a) b = num a := by simp [jsOr, h]

end JsVal

open JsVal

/-- Coerce a possibly-absent field into arithmetic: an absent field becomes
`NaN`, exactly as `undefined` does in JavaScript numeric context. -/
def toJs : Option ℝ → JsVal
  | none => JsVal.nan
  | some x => JsVal.num x

@[simp] theorem toJs_none : toJs none = JsVal.nan := rfl
@[simp] theorem toJs_some (x : ℝ) : toJs (some x) = JsVal.num x := rfl

/-! ### Data model of `ET0Calculator.selectBestMethod` (src/api/et0-calculator.js) -/

/-- The parameter record destructured by `selectBestMethod` and
`calculatePenmanMonteithFAO56` (src/api/et0-calculator.js).  Fields are
absent (`none`) when no reading contained the quantity. -/
structure Params where
  temperatura_maxima : Option ℝ
  temperatura_minima : Option ℝ
  umidade_relativa_max : Option ℝ
  umidade_relativa_min : Option ℝ
  umidade_relativa_med : Option ℝ
  radiacao_solar : Option ℝ
  velocidade_vento_2m : Option ℝ
  pressao_atmosferica : Option ℝ
  deriving DecidableEq

/-- Station metadata consumed by `selectBestMethod` (latitude, altitude with
default 400, optional day-of-year override).  Longitude and timezone are
carried by `REGION_PARAMS` but never read by the calculator. -/
structure StationInfo where
  latitude : Option ℝ
  altitude : Option ℝ
  julianDay : Option ℝ
  deriving DecidableEq

namespace ET0Calculator

/-- `convertSolarRadiationToDaily` (et0-calculator.js, lines 248-254):
W/m² to MJ/m²/day. -/
def convertSolarRadiationToDaily (solarRadiationW : ℝ) : ℝ :=
  solarRadiationW * 0.0864

/-- The unit-normalisation guard of `selectBestMethod` (et0-calculator.js,
lines 293-297 and 355-358): a raw radiation value above 1000 is taken to be
in W/m² and converted to MJ/m²/day. -/
def normalizeRadiation (radiacao_solar : ℝ) : ℝ :=
  if 1000 < radiacao_solar then convertSolarRadiationToDaily radiacao_solar
  else radiacao_solar

/-- `calculateAtmosphericPressure` (et0-calculator.js, lines 229-241). -/
def calculateAtmosphericPressure (altitude : JsVal) : JsVal :=
  let P0 : JsVal := num 101.3
  let tempK0 : JsVal := num 293
  let g : JsVal := num 9.807
  let M : JsVal := num 0.0289644
  let R : JsVal := num 8.31447
  jsMul P0 (jsPow (jsDiv (jsSub tempK0 (jsMul (num 0.0065) altitude)) tempK0)
    (jsDiv (jsMul g M) (jsMul R (num 0.0065))))

/-- `calculateExtraterrestrialRadiation` (et0-calculator.js, lines 157-176):
the FAO-56 formula for extraterrestrial radiation Ra.  The source body
performs no input validation and contains no `throw`; it always returns the
formula value (hence `.ok`), which is `NaN` whenever the `Math.acos`
argument falls outside `[-1, 1]`. -/
def calculateExtraterrestrialRadiation (latitude julianDay : JsVal) :
    Except Unit JsVal :=
  let phi := jsMul latitude (num (Real.pi / 180))
  let delta := jsMul (num 0.409)
    (jsSin (jsSub (jsDiv (jsMul (jsMul (num 2) (num Real.pi)) julianDay) (num 365))
      (num 1.39)))
  let dr := jsAdd (num 1)
    (jsMul (num 0.033)
      (jsCos (jsDiv (jsMul (jsMul (num 2) (num Real.pi)) julianDay) (num 365))))
  let omega_s := jsAcos (jsMul (jsNeg (jsTan phi)) (jsTan delta))
  let Gsc : JsVal := num 0.0820
  let Ra := jsMul (jsMul (jsMul (jsDiv (num (24 * 60)) (num Real.pi)) Gsc) dr)
    (jsAdd (jsMul (jsMul omega_s (jsSin phi)) (jsSin delta))
      (jsMul (jsMul (jsCos phi) (jsCos delta)) (jsSin omega_s)))
  .ok Ra

/-- `calculateClearSkyRadiation` (et0-calculator.js, lines 217-222). -/
def calculateClearSkyRadiation (latitude altitude julianDay : JsVal) :
    Except Unit JsVal := do
  let Ra ← calculateExtraterrestrialRadiation latitude julianDay
  let transmissionFactor := jsAdd (num 0.75) (jsMul (num 2e-5) altitude)
  return jsMul Ra transmissionFactor

/-- `calculateNetRadiation` (et0-calculator.js, lines 187-212).  Its
parameter list is `(Rs, Tmean, ea, latitude, julianDay)` — it omits
`altitude` — yet the body evaluates
`this.calculateClearSkyRadiation(latitude, altitude, julianDay)`.
`altitude` is an undeclared identifier there, so in an ES module (strict
mode) the function unconditionally raises `ReferenceError` at that line.
The `let` computations preceding the faulty line have no observable effect,
so the function is modelled as always throwing.  (The sibling copy of this
class in src/api/fieldclimate.js threads `altitude` through the parameter
list instead, confirming the omission is accidental.) -/
def calculateNetRadiation (_Rs _Tmean _ea _latitude _julianDay : JsVal) :
    Except Unit JsVal :=
  .error ()

/-- `calculatePenmanMonteithFAO56` (et0-calculator.js, lines 30-100).  The
call to `calculateNetRadiation` at step 7 always raises (see that
definition), so the function always propagates the exception; the
computations before and after are embedded faithfully but are dead. -/
def calculatePenmanMonteithFAO56 (params : Params) (stationInfo : StationInfo)
    (jdNow : ℝ) : Except Unit JsVal := do
  let temperatura_maxima := toJs params.temperatura_maxima
  let temperatura_minima := toJs params.temperatura_minima
  let radiacao_solar := toJs params.radiacao_solar
  let latitude := toJs stationInfo.latitude
  let altitude := toJs (some (stationInfo.altitude.getD 400))
  let julianDay := toJs (some (stationInfo.julianDay.getD jdNow))
  let Tmean := jsDiv (jsAdd temperatura_maxima temperatura_minima) (num 2)
  let es_max := jsMul (num 0.6108)
    (jsExp (jsDiv (jsMul (num 17.27) temperatura_maxima)
      (jsAdd temperatura_maxima (num 237.3))))
  let es_min := jsMul (num 0.6108)
    (jsExp (jsDiv (jsMul (num 17.27) temperatura_minima)
      (jsAdd temperatura_minima (num 237.3))))
  let es := jsDiv (jsAdd es_max es_min) (num 2)
  let ea :=
    match params.umidade_relativa_max, params.umidade_relativa_min with
    | some rhmax, some rhmin =>
      if rhmax ≠ 0 ∧ rhmin ≠ 0 then
        jsDiv (jsAdd (jsMul es_min (jsDiv (num rhmax) (num 100)))
          (jsMul es_max (jsDiv (num rhmin) (num 100)))) (num 2)
      else
        match params.umidade_relativa_med with
        | some rhmed =>
          if rhmed ≠ 0 then jsMul es (jsDiv (num rhmed) (num 100))
          else jsMul es (num 0.70)
        | none => jsMul es (num 0.70)
    | _, _ =>
      match params.umidade_relativa_med with
      | some rhmed =>
        if rhmed ≠ 0 then jsMul es (jsDiv (num rhmed) (num 100))
        else jsMul es (num 0.70)
      | none => jsMul es (num 0.70)
  let VPD := jsSub es ea
  let delta := jsDiv (jsMul (num 4098) es)
    (jsPow (jsAdd Tmean (num 237.3)) (num 2))
  let P := jsOr (toJs params.pressao_atmosferica) (calculateAtmosphericPressure altitude)
  let gamma := jsMul (num 0.000665) P
  let Rn ← calculateNetRadiation radiacao_solar Tmean ea latitude julianDay
  let G : JsVal := num 0
  let u2 := jsOr (toJs params.velocidade_vento_2m) (num 2.0)
  let numerador := jsAdd (jsMul (jsMul (num 0.408) delta) (jsSub Rn G))
    (jsMul (jsMul (jsMul gamma (jsDiv (num 900) (jsAdd Tmean (num 273)))) u2) VPD)
  let denominador := jsAdd delta (jsMul gamma (jsAdd (num 1) (jsMul (num 0.34) u2)))
  let ET0 := jsDiv numerador denominador
  return jsMax (num 0) ET0

/-- `calculateHargreavesSamani` (et0-calculator.js, lines 110-124).  Pure
float arithmetic over Ra; cannot throw. -/
def calculateHargreavesSamani (Tmax Tmin latitude : JsVal) (julianDay : ℝ) :
    Except Unit JsVal := do
  let Tmean := jsDiv (jsAdd Tmax Tmin) (num 2)
  let TR := jsSub Tmax Tmin
  let Ra ← calculateExtraterrestrialRadiation latitude (num julianDay)
  let kRs : JsVal := num 0.19
  let ET0 := jsMul (jsMul (jsMul (jsMul (num 0.0023) (jsAdd Tmean (num 17.8)))
    (jsSqrt TR)) Ra) kRs
  return jsMax (num 0) ET0

/-- `calculatePriestleyTaylor` (et0-calculator.js, lines 132-149). -/
def calculatePriestleyTaylor (Tmean Rn : JsVal) : Except Unit JsVal :=
  let es := jsMul (num 0.6108)
    (jsExp (jsDiv (jsMul (num 17.27) Tmean) (jsAdd Tmean (num 237.3))))
  let delta := jsDiv (jsMul (num 4098) es) (jsPow (jsAdd Tmean (num 237.3)) (num 2))
  let gamma : JsVal := num 0.066
  let alpha : JsVal := num 1.26
  let ET0 := jsMul (jsMul alpha (jsDiv delta (jsAdd delta gamma)))
    (jsDiv Rn (num 2.45))
  .ok (jsMax (num 0) ET0)

/-- The mutable locals of `selectBestMethod` (`method`, `et0Value`,
`quality`, `usedParams`), threaded through the four stages. -/
structure SelState where
  method : String
  et0Value : JsVal
  quality : String
  usedParams : List String
  deriving DecidableEq

/-- Initial state of `selectBestMethod` (et0-calculator.js, lines 285-288). -/
def initState : SelState :=
  { method := "", et0Value := num 0, quality := "muito_baixa", usedParams := [] }

/-- Stage 1 of `selectBestMethod` (et0-calculator.js, lines 290-323):
Penman-Monteith FAO-56, guarded by truthiness of Tmax, Tmin and radiation
(humidity and wind optional).  The body always fails with `ReferenceError`
(see `calculateNetRadiation`), which the `catch` swallows. -/
def stage1 (p : Params) (s : StationInfo) (jdNow : ℝ) (st : SelState) : SelState :=
  match p.temperatura_maxima, p.temperatura_minima, p.radiacao_solar with
  | some tmax, some tmin, some rs =>
    if tmax ≠ 0 ∧ tmin ≠ 0 ∧ rs ≠ 0 then
      let Rs_MJ := normalizeRadiation rs
      let et0Params : Params :=
        { temperatura_maxima := some tmax
          temperatura_minima := some tmin
          umidade_relativa_max := p.umidade_relativa_max
          umidade_relativa_min := p.umidade_relativa_min
          umidade_relativa_med := p.umidade_relativa_med
          radiacao_solar := some Rs_MJ
          velocidade_vento_2m := p.velocidade_vento_2m
          pressao_atmosferica := none }
      match calculatePenmanMonteithFAO56 et0Params s jdNow with
      | .ok v =>
        { method := "penman_monteith_fao56", et0Value := v, quality := "alta"
          usedParams := ["temperatura_maxima", "temperatura_minima",
            "radiacao_solar", "velocidade_vento"] }
      | .error _ => st
    else st
  | _, _, _ => st

/-- Stage 2 of `selectBestMethod` (et0-calculator.js, lines 325-348):
Hargreaves-Samani, entered when no method is set yet or quality is still
`muito_baixa`.  Reads the wall clock through `getJulianDay()` (`jdNow`). -/
def stage2 (p : Params) (s : StationInfo) (jdNow : ℝ) (st : SelState) : SelState :=
  if st.method = "" ∨ st.quality = "muito_baixa" then
    match p.temperatura_maxima, p.temperatura_minima with
    | some tmax, some tmin =>
      if tmax ≠ 0 ∧ tmin ≠ 0 then
        match calculateHargreavesSamani (num tmax) (num tmin)
          (jsOr (toJs s.latitude) (num (-12.15))) jdNow with
        | .ok v =>
          { method := "hargreaves_samani", et0Value := v, quality := "media"
            usedParams := ["temperatura_maxima", "temperatura_minima", "latitude"] }
        | .error _ => st
      else st
    | _, _ => st
  else st

/-- Stage 3 of `selectBestMethod` (et0-calculator.js, lines 350-375):
Priestley-Taylor with the simplified net radiation `0.77 × Rs`. -/
def stage3 (p : Params) (_s : StationInfo) (_jdNow : ℝ) (st : SelState) : SelState :=
  if st.method = "" ∨ st.quality = "muito_baixa" then
    match p.temperatura_maxima, p.temperatura_minima, p.radiacao_solar with
    | some tmax, some tmin, some rs =>
      if tmax ≠ 0 ∧ tmin ≠ 0 ∧ rs ≠ 0 then
        let Tmean := (tmax + tmin) / 2
        let Rs_MJ := normalizeRadiation rs
        let Rn := Rs_MJ * 0.77
        match calculatePriestleyTaylor (num Tmean) (num Rn) with
        | .ok v =>
          { method := "priestley_taylor", et0Value := v, quality := "media"
            usedParams := ["temperatura_media", "radiacao_solar"] }
        | .error _ => st
      else st
    | _, _, _ => st
  else st

/-- Stage 4 of `selectBestMethod` (et0-calculator.js, lines 377-392): the
temperature estimate fallback, defaulting Tmean to 25 °C. -/
def stage4 (p : Params) (st : SelState) : SelState :=
  if st.method = "" ∨ st.quality = "muito_baixa" then
    let Tmean : ℝ :=
      match p.temperatura_maxima, p.temperatura_minima with
      | some tmax, some tmin =>
        if tmax ≠ 0 ∧ tmin ≠ 0 then (tmax + tmin) / 2 else 25
      | _, _ => 25
    { method := "estimativa_temperatura", et0Value := num (0.3 * Tmean)
      quality := "baixa", usedParams := ["temperatura_estimada", "regiao"] }
  else st

/-- The result object of `selectBestMethod` (et0-calculator.js,
lines 394-399). -/
structure SelectResult where
  value : JsVal
  method : String
  quality : String
  parameters : List String
  deriving DecidableEq

/-- `selectBestMethod` (et0-calculator.js, lines 274-400): the four-stage
fallback chain, final clamp `Math.max(0, parseFloat(et0Value.toFixed(2)))`.
`jdNow` is the day of year read from the wall clock by `getJulianDay()`. -/
def selectBestMethod (params : Params) (stationInfo : StationInfo) (jdNow : ℝ) :
    SelectResult :=
  let st := stage4 params
    (stage3 params stationInfo jdNow
      (stage2 params stationInfo jdNow
        (stage1 params stationInfo jdNow initState)))
  { value := jsMax (num 0) (jsToFixed2 st.et0Value)
    method := st.method
    quality := st.quality
    parameters := st.usedParams }

end ET0Calculator

/-! ### Data model of `FieldClimateAPI.selectET0CalculationMethod`
(src/unnamed/part_000, third document) -/

/-- The parameter record produced by
`FieldClimateAPI.extractMeteorologicalParameters` and consumed by
`selectET0CalculationMethod` (src/unnamed/part_000, lines 378-422 and
485-554). -/
structure ApiParams where
  temperatura_media : Option ℝ
  temperatura_maxima : Option ℝ
  temperatura_minima : Option ℝ
  umidade_relativa : Option ℝ
  radiacao_solar : Option ℝ
  velocidade_vento : Option ℝ
  deriving DecidableEq

/-- The result object of `selectET0CalculationMethod` (src/unnamed/part_000,
lines 548-553). -/
structure ApiResult where
  value : JsVal
  method : String
  parameters : List String
  data_quality : String
  deriving DecidableEq

namespace FieldClimateAPI

/-- `calculatePenmanMonteithET0` (src/unnamed/part_000, lines 424-460):
the simplified Penman-Monteith of the FieldClimateAPI object (fixed
sea-level psychrometric constant, simplified net radiation). -/
def calculatePenmanMonteithET0 (p : ApiParams) : JsVal :=
  let Tmean := toJs p.temperatura_media
  let RHmean := toJs p.umidade_relativa
  let Rs := toJs p.radiacao_solar
  let u2 := jsOr (toJs p.velocidade_vento) (num 2.0)
  let es := jsMul (num 0.6108)
    (jsExp (jsDiv (jsMul (num 17.27) Tmean) (jsAdd Tmean (num 237.3))))
  let ea := jsMul (jsDiv RHmean (num 100)) es
  let VPD := jsSub es ea
  let delta := jsDiv (jsMul (num 4098) es) (jsPow (jsAdd Tmean (num 237.3)) (num 2))
  let gamma := jsMul (jsMul (num 0.665) (num 0.001)) (num 101.3)
  let Rs_MJ := jsMul Rs (num 0.0864)
  let Rns := jsMul (jsSub (num 1) (num 0.23)) Rs_MJ
  let Rnl := jsMul (jsMul (jsMul (num 4.903e-9)
      (jsPow (jsAdd Tmean (num 273.16)) (num 4)))
      (jsSub (num 0.34) (jsMul (num 0.14) (jsSqrt ea))))
    (jsSub (jsMul (num 1.35)
      (jsDiv Rs_MJ (jsMul (jsMul (num 0.75) (num 24)) (num 0.0820)))) (num 0.35))
  let Rn := jsSub Rns Rnl
  let G : JsVal := num 0
  let numerator := jsAdd (jsMul (jsMul (num 0.408) delta) (jsSub Rn G))
    (jsMul (jsMul (jsMul gamma (jsDiv (num 900) (jsAdd Tmean (num 273)))) u2) VPD)
  let denominator := jsAdd delta (jsMul gamma (jsAdd (num 1) (jsMul (num 0.34) u2)))
  let ET0 := jsDiv numerator denominator
  jsMax (num 0) ET0

/-- `calculateHargreavesET0` (src/unnamed/part_000, lines 462-467). -/
def calculateHargreavesET0 (Tmax Tmin Rs : JsVal) : JsVal :=
  let Tmean := jsDiv (jsAdd Tmax Tmin) (num 2)
  let Ra := jsMul Rs (num 0.0864)
  jsMul (jsMul (jsMul (num 0.0023) Ra) (jsAdd Tmean (num 17.8)))
    (jsSqrt (jsSub Tmax Tmin))

/-- `calculateHargreavesTemperatureOnly` (src/unnamed/part_000,
lines 469-475).  `Math.pow(tempRange, 0.674)` is `NaN` for a negative
range, as in JavaScript. -/
def calculateHargreavesTemperatureOnly (Tmax Tmin : JsVal) : JsVal :=
  let Tmean := jsDiv (jsAdd Tmax Tmin) (num 2)
  let tempRange := jsSub Tmax Tmin
  let Ra_estimated : JsVal := num 15
  jsMul (jsMul (jsMul (num 0.0023) Ra_estimated) (jsPow tempRange (num 0.674)))
    (jsSub Tmean (num 3.5))

/-- `estimateET0FromTemperature` (src/unnamed/part_000, lines 477-483). -/
def estimateET0FromTemperature (Tmean : ℝ) : ℝ :=
  if Tmean > 10 then 0.2 * Tmean else 0.1 * Tmean

/-- `assessDataQuality` (src/unnamed/part_000, lines 556-562): grade by the
number of used-parameter keys.  (The near-duplicate copy of this object
embedded in src/api/et0-calculator.js lacks the `muito_baixa` tier and
returns `baixa` for an empty map; this is the part_000 variant, the one the
claims cite.) -/
def assessDataQuality (parameters : List String) : String :=
  if 4 ≤ parameters.length then "alta"
  else if 2 ≤ parameters.length then "media"
  else if 1 ≤ parameters.length then "baixa"
  else "muito_baixa"

/-- `selectET0CalculationMethod` (src/unnamed/part_000, lines 485-554): the
five-way if/else chain, final clamp
`Math.max(0, parseFloat(et0Value.toFixed(1)))` and quality grading.  All
guards are JS truthiness tests. -/
def selectET0CalculationMethod (p : ApiParams) : ApiResult :=
  let sel : JsVal × String × List String :=
    match p.temperatura_media, p.umidade_relativa, p.radiacao_solar,
      p.velocidade_vento with
    | some tmed, some rh, some rs, some vv =>
      if tmed ≠ 0 ∧ rh ≠ 0 ∧ rs ≠ 0 ∧ vv ≠ 0 then
        (calculatePenmanMonteithET0 p, "penman_monteith_completo",
          ["temperatura_media", "umidade_relativa", "radiacao_solar",
            "velocidade_vento"])
      else selectFallback p
    | _, _, _, _ => selectFallback p
  { value := jsMax (num 0) (jsToFixed1 sel.1)
    method := sel.2.1
    parameters := sel.2.2
    data_quality := assessDataQuality sel.2.2 }
where
  /-- Methods 2-5 of the chain (the `else if` cascade). -/
  selectFallback (p : ApiParams) : JsVal × String × List String :=
    match p.temperatura_maxima, p.temperatura_minima with
    | some tmax, some tmin =>
      if tmax ≠ 0 ∧ tmin ≠ 0 then
        match p.radiacao_solar with
        | some rs =>
          if rs ≠ 0 then
            (calculateHargreavesET0 (num tmax) (num tmin) (num rs),
              "hargreaves_temperatura_radiacao",
              ["temperatura_maxima", "temperatura_minima", "radiacao_solar"])
          else
            (calculateHargreavesTemperatureOnly (num tmax) (num tmin),
              "hargreaves_apenas_temperatura",
              ["temperatura_maxima", "temperatura_minima"])
        | none =>
          (calculateHargreavesTemperatureOnly (num tmax) (num tmin),
            "hargreaves_apenas_temperatura",
            ["temperatura_maxima", "temperatura_minima"])
      else selectTemperatureOnly p
    | _, _ => selectTemperatureOnly p
  /-- Methods 4-5 of the chain. -/
  selectTemperatureOnly (p : ApiParams) : JsVal × String × List String :=
    match p.temperatura_media with
    | some tmed =>
      if tmed ≠ 0 then
        (num (estimateET0FromTemperature tmed), "estimativa_temperatura_media",
          ["temperatura_media"])
      else (num 3.5, "estimativa_padrao", [])
    | none => (num 3.5, "estimativa_padrao", [])

end FieldClimateAPI

/-! ### The `calculateET0` handlers and their seasonal fallbacks -/

/-- The calendar-month banded constant of the seasonal fallback
(src/api/fieldclimate.js lines 717-726 and src/unnamed/part_000
lines 790-799; identical in both): `month` is the 0-based
`new Date().getMonth()`. -/
def seasonalBand (month : ℕ) : ℝ :=
  if 9 ≤ month ∨ month ≤ 2 then 4.5
  else if 3 ≤ month ∧ month ≤ 5 then 3.0
  else 2.5

/-- The client-facing payload assembled by the `calculateET0` handlers
(value, method tag, used-parameter keys, quality grade; the `unit`, `date`,
`note` and `source` strings are constant decoration and are elided). -/
structure ET0Payload where
  value : JsVal
  method : String
  parameters : List String
  data_quality : String
  deriving DecidableEq

/-- `ET0Calculator.fetchET0FromGist` does not exist: et0-calculator.js
defines no such static method, so the call in the `catch` block of
`calculateET0` (src/api/fieldclimate.js, lines 692-694) raises `TypeError`
and the inner `catch` advances to the seasonal fallback. -/
def fetchET0FromGist : Except Unit ET0Payload := .error ()

/-- `calculateET0` of src/api/fieldclimate.js (lines 652-746).  The
argument `attempt` is the outcome of the `try` block (station fetch,
parameter extraction and `ET0Calculator.selectBestMethod`); on failure the
handler first tries `fetchET0FromGist` (which always raises, see above) and
then substitutes the seasonal estimate — tagged `data_quality: 'baixa'` in
this file. -/
def calculateET0Fieldclimate (attempt : Except Unit ET0Calculator.SelectResult)
    (month : ℕ) : ET0Payload :=
  match attempt with
  | .ok r =>
    { value := r.value, method := r.method, parameters := r.parameters
      data_quality := r.quality }
  | .error _ =>
    match fetchET0FromGist with
    | .ok g => g
    | .error _ =>
      { value := num (seasonalBand month)
        method := "estimativa_sazonal"
        parameters := ["mes_do_ano", "regiao", "fonte"]
        data_quality := "baixa" }

/-- `calculateET0` of src/unnamed/part_000 (lines 763-819).  On failure of
the `try` block (station fetch, extraction,
`FieldClimateAPI.selectET0CalculationMethod`) it substitutes the seasonal
estimate directly — tagged `data_quality: 'muito_baixa'` in this file. -/
def calculateET0PartZero (attempt : Except Unit ApiResult) (month : ℕ) :
    ET0Payload :=
  match attempt with
  | .ok r =>
    { value := r.value, method := r.method, parameters := r.parameters
      data_quality := r.data_quality }
  | .error _ =>
    { value := num (seasonalBand month)
      method := "estimativa_sazonal"
      parameters := ["mes_do_ano", "regiao", "fonte"]
      data_quality := "muito_baixa" }

/-! ### Structural lemmas about the stage chain -/

namespace ET0Calculator

/-- `calculatePenmanMonteithFAO56` always propagates the `ReferenceError`
raised inside `calculateNetRadiation`. -/
theorem penman_always_errors (p : Params) (s : StationInfo) (jdNow : ℝ) :
    calculatePenmanMonteithFAO56 p s jdNow = .error () := rfl

/-- Stage 1 never changes the selector state: its body always throws and the
`catch` swallows the exception. -/
theorem stage1_eq (p : Params) (s : StationInfo) (jdNow : ℝ) (st : SelState) :
    stage1 p s jdNow st = st := by
  unfold stage1
  cases p.temperatura_maxima <;> cases p.temperatura_minima <;>
    cases p.radiacao_solar <;> simp [penman_always_errors]

/-- `calculateHargreavesSamani` never throws. -/
theorem hargreaves_ok (Tmax Tmin latitude : JsVal) (julianDay : ℝ) :
    ∃ v, calculateHargreavesSamani Tmax Tmin latitude julianDay = .ok v :=
  ⟨_, rfl⟩

/-- After stage 2 has been applied, stage 3 is inert: either stage 2 already
produced a `media`-quality Hargreaves result (so stage 3's entry guard
fails), or the temperatures stage 3 needs are missing as well. -/
theorem stage3_after_stage2 (p : Params) (s : StationInfo) (jdNow : ℝ)
    (st : SelState) :
    stage3 p s jdNow (stage2 p s jdNow st) = stage2 p s jdNow st := by
  unfold stage2 stage3
  by_cases hg : st.method = "" ∨ st.quality = "muito_baixa"
  · simp only [if_pos hg]
    cases hmax : p.temperatura_maxima with
    | none => simp [hg]
    | some tmax =>
      cases hmin : p.temperatura_minima with
      | none => simp [hg]
      | some tmin =>
        by_cases ht : tmax ≠ 0 ∧ tmin ≠ 0
        · simp [ht, calculateHargreavesSamani,
            calculateExtraterrestrialRadiation]
        · cases hrs : p.radiacao_solar with
          | none => simp [ht, hg]
          | some rs =>
            have hno : ¬(tmax ≠ 0 ∧ tmin ≠ 0 ∧ rs ≠ 0) := by tauto
            simp [ht, hg, hno]
  · simp [hg]

end ET0Calculator

open ET0Calculator

/-! ### Claims C3, C10: totality and unreachability of Priestley-Taylor -/

/-- C3: For every input parameter record and station metadata,
`selectBestMethod` terminates without raising an exception and returns a
result object containing value, method, quality and parameters fields, with
a non-empty method — the final temperature stage always succeeds.  (The
return type `SelectResult` already carries the four fields, and the
function is total, so no exception can escape; the theorem states the
non-trivial part: the method tag is never empty.) -/
theorem selectBestMethod_method_ne_empty (p : Params) (s : StationInfo)
    (jdNow : ℝ) : (selectBestMethod p s jdNow).method ≠ "" := by
  unfold selectBestMethod
  rw [stage1_eq, stage3_after_stage2]
  set st2 := stage2 p s jdNow initState with hst2
  unfold stage4
  by_cases hg : st2.method = "" ∨ st2.quality = "muito_baixa"
  · simp [hg]
  · simp only [if_neg hg]
    push_neg at hg
    exact hg.1

/-- C10: the Priestley-Taylor stage is unreachable: whenever its entry
condition (truthy temperature extremes and radiation) holds, the preceding
Hargreaves-Samani stage has already succeeded and set quality `media`, so
`selectBestMethod` never returns method `priestley_taylor`. -/
theorem selectBestMethod_never_priestley (p : Params) (s : StationInfo)
    (jdNow : ℝ) : (selectBestMethod p s jdNow).method ≠ "priestley_taylor" := by
  unfold selectBestMethod
  rw [stage1_eq, stage3_after_stage2]
  set st2 := stage2 p s jdNow initState with hst2
  have h2 : st2.method = "hargreaves_samani" ∨ st2.method = initState.method := by
    rw [hst2]
    unfold stage2
    by_cases hg : initState.method = "" ∨ initState.quality = "muito_baixa"
    · simp only [if_pos hg]
      cases p.temperatura_maxima with
      | none => right; rfl
      | some tmax =>
        cases p.temperatura_minima with
        | none => right; rfl
        | some tmin =>
          by_cases ht : tmax ≠ 0 ∧ tmin ≠ 0
          · left
            simp [ht, calculateHargreavesSamani,
              calculateExtraterrestrialRadiation]
          · right; simp [ht]
    · right; simp [hg]
  unfold stage4
  by_cases hg : st2.method = "" ∨ st2.quality = "muito_baixa"
  · simp [hg]
  · simp only [if_neg hg]
    rcases h2 with h | h <;> simp [h, initState]

/-! ### Claim C2: non-negativity of the value field -/

/-- The final clamp `Math.max(0, parseFloat(v.toFixed(2)))` yields a
nonnegative number whenever it yields a number at all (it yields `NaN`
exactly when the selected computation produced `NaN`). -/
theorem clamp_nonneg (v : JsVal) (x : ℝ)
    (h : jsMax (num 0) (jsToFixed2 v) = num x) : 0 ≤ x := by
  cases v with
  | nan => simp [jsMax, jsToFixed2] at h
  | num a =>
    simp only [jsToFixed2_num, jsMax_num_num, JsVal.num.injEq] at h
    rw [← h]
    exact le_max_left 0 _

/-- C2 (amended): whenever the value field of `selectBestMethod` is an
ordinary number, that number is `≥ 0`.  (On pathological inputs such as
Tmax < Tmin the value field is `NaN` instead — see the counterexample —
because `Math.sqrt(Tmax - Tmin)` is `NaN` and `Math.max(0, NaN)` is `NaN`,
so the clamp does not produce 0.) -/
theorem selectBestMethod_value_nonneg (p : Params) (s : StationInfo)
    (jdNow : ℝ) (x : ℝ)
    (h : (selectBestMethod p s jdNow).value = JsVal.num x) : 0 ≤ x := by
  unfold selectBestMethod at h
  exact clamp_nonneg _ _ h

/-- A parameter record with inverted temperatures (Tmax = 18 < Tmin = 30)
and nothing else present. -/
def pPathological : Params :=
  { temperatura_maxima := some 18, temperatura_minima := some 30
    umidade_relativa_max := none, umidade_relativa_min := none
    umidade_relativa_med := none, radiacao_solar := none
    velocidade_vento_2m := none, pressao_atmosferica := none }

/-- A parameter record with no data at all. -/
def pEmpty : Params :=
  { temperatura_maxima := none, temperatura_minima := none
    umidade_relativa_max := none, umidade_relativa_min := none
    umidade_relativa_med := none, radiacao_solar := none
    velocidade_vento_2m := none, pressao_atmosferica := none }

/-- The station metadata of station 031133E8 (Barra, BA) from
`REGION_PARAMS`. -/
def sBarra : StationInfo :=
  { latitude := some (-12.15), altitude := some 400, julianDay := none }

/-- C2 (counterexample): on the pathological record with Tmax = 18 < Tmin =
30 (day of year 172), the value field of `selectBestMethod` is `NaN`, which
does not satisfy `value ≥ 0`: `Math.sqrt(Tmax - Tmin)` is `NaN` in the
Hargreaves stage and `NaN` survives both `Math.max(0, ·)` clamps. -/
theorem selectBestMethod_value_nan_on_inverted_temps :
    (selectBestMethod pPathological sBarra 172).value = JsVal.nan ∧
      ¬ JsVal.jsNonneg (selectBestMethod pPathological sBarra 172).value := by
  have h : (selectBestMethod pPathological sBarra 172).value = JsVal.nan := by
    unfold selectBestMethod
    rw [stage1_eq, stage3_after_stage2]
    have h2 : stage2 pPathological sBarra 172 initState =
        { method := "hargreaves_samani", et0Value := JsVal.nan
          quality := "media"
          usedParams := ["temperatura_maxima", "temperatura_minima",
            "latitude"] } := by
      unfold stage2 pPathological
      norm_num [initState, calculateHargreavesSamani,
        calculateExtraterrestrialRadiation, jsOr, jsDiv, jsSqrt, pure,
        Except.pure, Bind.bind, Except.bind]
    rw [h2]
    have hguard : ¬("hargreaves_samani" = "" ∨ "media" = "muito_baixa") := by
      decide
    simp [stage4, hguard]
  exact ⟨h, by rw [h]; simp [JsVal.jsNonneg]⟩

/-- On the empty record, the selector reaches stage 4 with the default
Tmean = 25 and returns value 0.3 × 25 = 7.5, method
`estimativa_temperatura`, quality `baixa`. -/
theorem selectBestMethod_empty_eval :
    selectBestMethod pEmpty sBarra 172 =
      { value := JsVal.num 7.5, method := "estimativa_temperatura"
        quality := "baixa"
        parameters := ["temperatura_estimada", "regiao"] } := by
  unfold selectBestMethod
  rw [stage1_eq, stage3_after_stage2]
  have h2 : stage2 pEmpty sBarra 172 initState = initState := by
    unfold stage2 pEmpty
    simp [initState]
  rw [h2]
  have h4 : stage4 pEmpty initState =
      { method := "estimativa_temperatura", et0Value := JsVal.num (0.3 * 25)
        quality := "baixa", usedParams := ["temperatura_estimada", "regiao"] } := by
    unfold stage4 pEmpty
    simp [initState]
  rw [h4]
  have hr : (round ((0.3 : ℝ) * 25 * 100) : ℤ) = 750 := by
    norm_num [round_eq]
  norm_num [hr]

/-- C2 (witness): the amended non-negativity theorem applied at a concrete
input whose value field is an ordinary number (the empty record, value
7.5). -/
theorem selectBestMethod_value_nonneg_witness :
    (selectBestMethod pEmpty sBarra 172).value = JsVal.num 7.5 ∧ (0 : ℝ) ≤ 7.5 := by
  have h : (selectBestMethod pEmpty sBarra 172).value = JsVal.num 7.5 := by
    rw [selectBestMethod_empty_eval]
  exact ⟨h, selectBestMethod_value_nonneg pEmpty sBarra 172 7.5 h⟩

/-! ### Claim C1: the Penman-Monteith stage can never succeed -/

/-- Scenario A of the specification: Tmax = 30, Tmin = 18, radiation =
22.5 MJ/m²/day, wind = 2.3 m/s, humidity absent. -/
def pScenarioA : Params :=
  { temperatura_maxima := some 30, temperatura_minima := some 18
    umidade_relativa_max := none, umidade_relativa_min := none
    umidade_relativa_med := none, radiacao_solar := some 22.5
    velocidade_vento_2m := some 2.3, pressao_atmosferica := none }

/-- Stage 4 is inert on a state whose entry guard fails. -/
theorem stage4_of_guard_false (p : Params) (st : SelState)
    (h : ¬(st.method = "" ∨ st.quality = "muito_baixa")) :
    stage4 p st = st := by simp [stage4, h]

/-- After stage 2, the method tag is either the incoming one or
`hargreaves_samani`. -/
theorem stage2_method (p : Params) (s : StationInfo) (jdNow : ℝ)
    (st : SelState) :
    (stage2 p s jdNow st).method = "hargreaves_samani" ∨
      stage2 p s jdNow st = st := by
  unfold stage2
  by_cases hg : st.method = "" ∨ st.quality = "muito_baixa"
  · simp only [if_pos hg]
    cases p.temperatura_maxima with
    | none => right; rfl
    | some tmax =>
      cases p.temperatura_minima with
      | none => right; rfl
      | some tmin =>
        by_cases ht : tmax ≠ 0 ∧ tmin ≠ 0
        · left
          simp [ht, calculateHargreavesSamani,
            calculateExtraterrestrialRadiation]
        · right; simp [ht]
  · simp [hg]

/-- On Scenario A the selector enters stage 1 (the guard holds), the
Penman-Monteith body throws, and stage 2 takes over. -/
theorem stage2_scenarioA_state :
    ∃ v, stage2 pScenarioA sBarra 172 initState =
      { method := "hargreaves_samani", et0Value := v, quality := "media"
        usedParams := ["temperatura_maxima", "temperatura_minima",
          "latitude"] } := by
  obtain ⟨v, hv⟩ := hargreaves_ok (num 30) (num 18) (num (-12.15)) 172
  refine ⟨v, ?_⟩
  have hlat : jsOr (toJs sBarra.latitude) (num (-12.15)) = num (-12.15) := by
    simp only [sBarra, toJs_some]
    exact jsOr_num_of_ne _ (by norm_num)
  have h30 : (30 : ℝ) ≠ 0 := by norm_num
  have h18 : (18 : ℝ) ≠ 0 := by norm_num
  simp [stage2, pScenarioA, initState, hlat, hv, h30, h18]

/-- C1 (code bug): although the record of Scenario A satisfies the
Penman-Monteith stage's entry guard (Tmax, Tmin, radiation and wind all
present, humidity absent), `selectBestMethod` never returns
`penman_monteith_fao56` — for this or any other input — because
`calculateNetRadiation` reads the undeclared identifier `altitude`, so the
stage body always raises `ReferenceError`, the `catch` swallows it, and the
selector falls through to Hargreaves-Samani with quality `media`. -/
theorem selectBestMethod_c1_eval :
    (∀ (p : Params) (s : StationInfo) (jdNow : ℝ),
      (selectBestMethod p s jdNow).method ≠ "penman_monteith_fao56") ∧
    (selectBestMethod pScenarioA sBarra 172).method = "hargreaves_samani" ∧
    (selectBestMethod pScenarioA sBarra 172).quality = "media" := by
  have hmain : ∀ (p : Params) (s : StationInfo) (jdNow : ℝ),
      (selectBestMethod p s jdNow).method ≠ "penman_monteith_fao56" := by
    intro p s jdNow
    unfold selectBestMethod
    rw [stage1_eq, stage3_after_stage2]
    set st2 := stage2 p s jdNow initState with hst2
    by_cases hg : st2.method = "" ∨ st2.quality = "muito_baixa"
    · simp [stage4, hg]
    · rw [stage4_of_guard_false p st2 hg]
      rcases stage2_method p s jdNow initState with h | h
      · rw [hst2]
        simp [h]
      · rw [hst2, h]
        simp [initState]
  have hA : ∃ v, selectBestMethod pScenarioA sBarra 172 =
      { value := JsVal.jsMax (num 0) (JsVal.jsToFixed2 v)
        method := "hargreaves_samani", quality := "media"
        parameters := ["temperatura_maxima", "temperatura_minima",
          "latitude"] } := by
    obtain ⟨v, hv⟩ := stage2_scenarioA_state
    refine ⟨v, ?_⟩
    unfold selectBestMethod
    rw [stage1_eq, stage3_after_stage2, hv]
    have hguard : ¬("hargreaves_samani" = "" ∨ "media" = "muito_baixa") := by
      decide
    rw [stage4_of_guard_false]
    exact hguard
  obtain ⟨v, hv⟩ := hA
  exact ⟨hmain, by rw [hv], by rw [hv]⟩

/-! ### Claim C4: a zero-valued field is treated like an absent one -/

/-- Stage 2 reads only the two temperature fields of the record. -/
theorem stage2_only_temps (p q : Params) (s : StationInfo) (jdNow : ℝ)
    (st : SelState) (hmax : p.temperatura_maxima = q.temperatura_maxima)
    (hmin : p.temperatura_minima = q.temperatura_minima) :
    stage2 p s jdNow st = stage2 q s jdNow st := by
  unfold stage2
  rw [hmax, hmin]

/-- Stage 4 reads only the two temperature fields of the record. -/
theorem stage4_only_temps (p q : Params) (st : SelState)
    (hmax : p.temperatura_maxima = q.temperatura_maxima)
    (hmin : p.temperatura_minima = q.temperatura_minima) :
    stage4 p st = stage4 q st := by
  unfold stage4
  rw [hmax, hmin]

/-- Stage 2 treats a zero minimum temperature like an absent one. -/
theorem stage2_zero_min (p : Params) (s : StationInfo) (jdNow : ℝ)
    (st : SelState) :
    stage2 { p with temperatura_minima := some 0 } s jdNow st =
      stage2 { p with temperatura_minima := none } s jdNow st := by
  obtain ⟨tmax, tmin, a, b, c, d, e, f⟩ := p
  unfold stage2
  cases tmax <;> simp

/-- Stage 2 treats a zero maximum temperature like an absent one. -/
theorem stage2_zero_max (p : Params) (s : StationInfo) (jdNow : ℝ)
    (st : SelState) :
    stage2 { p with temperatura_maxima := some 0 } s jdNow st =
      stage2 { p with temperatura_maxima := none } s jdNow st := by
  obtain ⟨tmax, tmin, a, b, c, d, e, f⟩ := p
  unfold stage2
  cases tmin <;> simp

/-- Stage 4 treats a zero minimum temperature like an absent one. -/
theorem stage4_zero_min (p : Params) (st : SelState) :
    stage4 { p with temperatura_minima := some 0 } st =
      stage4 { p with temperatura_minima := none } st := by
  obtain ⟨tmax, tmin, a, b, c, d, e, f⟩ := p
  unfold stage4
  cases tmax <;> simp

/-- Stage 4 treats a zero maximum temperature like an absent one. -/
theorem stage4_zero_max (p : Params) (st : SelState) :
    stage4 { p with temperatura_maxima := some 0 } st =
      stage4 { p with temperatura_maxima := none } st := by
  obtain ⟨tmax, tmin, a, b, c, d, e, f⟩ := p
  unfold stage4
  cases tmin <;> simp

/-- C4 (amended): the selector's guards use JS truthiness, so a record in
which max temperature, min temperature or solar radiation is present with
value 0 is routed exactly like one in which that field is absent: the
results are identical. -/
theorem selectBestMethod_zero_as_absent (p : Params) (s : StationInfo)
    (jdNow : ℝ) :
    selectBestMethod { p with temperatura_maxima := some 0 } s jdNow =
        selectBestMethod { p with temperatura_maxima := none } s jdNow ∧
      selectBestMethod { p with temperatura_minima := some 0 } s jdNow =
        selectBestMethod { p with temperatura_minima := none } s jdNow ∧
      selectBestMethod { p with radiacao_solar := some 0 } s jdNow =
        selectBestMethod { p with radiacao_solar := none } s jdNow := by
  refine ⟨?_, ?_, ?_⟩
  · unfold selectBestMethod
    rw [stage1_eq, stage1_eq, stage3_after_stage2, stage3_after_stage2,
      stage2_zero_max, stage4_zero_max]
  · unfold selectBestMethod
    rw [stage1_eq, stage1_eq, stage3_after_stage2, stage3_after_stage2,
      stage2_zero_min, stage4_zero_min]
  · unfold selectBestMethod
    rw [stage1_eq, stage1_eq, stage3_after_stage2, stage3_after_stage2,
      stage2_only_temps { p with radiacao_solar := some 0 }
        { p with radiacao_solar := none } _ _ _ rfl rfl,
      stage4_only_temps { p with radiacao_solar := some 0 }
        { p with radiacao_solar := none } _ rfl rfl]

/-- A record whose min temperature is present with value 0 (Tmax = 5). -/
def pZeroMin : Params :=
  { temperatura_maxima := some 5, temperatura_minima := some 0
    umidade_relativa_max := none, umidade_relativa_min := none
    umidade_relativa_med := none, radiacao_solar := none
    velocidade_vento_2m := none, pressao_atmosferica := none }

/-- The same record with the min temperature absent instead. -/
def pNoMin : Params :=
  { temperatura_maxima := some 5, temperatura_minima := none
    umidade_relativa_max := none, umidade_relativa_min := none
    umidade_relativa_med := none, radiacao_solar := none
    velocidade_vento_2m := none, pressao_atmosferica := none }

/-- C4 (counterexample): a record with min temperature present but equal to
0 is handled exactly as if the field were absent: with Tmax = 5 and
Tmin = 0 the Hargreaves guard is skipped and the selector lands in the
temperature fallback with the default Tmean = 25, identical to the record
with the field removed.  Presence with value 0 is NOT distinguished from
absence. -/
theorem selectBestMethod_c4_counterexample :
    selectBestMethod pZeroMin sBarra 172 = selectBestMethod pNoMin sBarra 172 ∧
    (selectBestMethod pZeroMin sBarra 172).method = "estimativa_temperatura" := by
  have hr : (round ((0.3 : ℝ) * 25 * 100) : ℤ) = 750 := by
    norm_num [round_eq]
  have h1 : selectBestMethod pZeroMin sBarra 172 =
      { value := JsVal.num 7.5, method := "estimativa_temperatura"
        quality := "baixa"
        parameters := ["temperatura_estimada", "regiao"] } := by
    unfold selectBestMethod
    rw [stage1_eq, stage3_after_stage2]
    have h2 : stage2 pZeroMin sBarra 172 initState = initState := by
      unfold stage2 pZeroMin
      simp [initState]
    rw [h2]
    have h4 : stage4 pZeroMin initState =
        { method := "estimativa_temperatura", et0Value := JsVal.num (0.3 * 25)
          quality := "baixa"
          usedParams := ["temperatura_estimada", "regiao"] } := by
      unfold stage4 pZeroMin
      simp [initState]
    rw [h4]
    norm_num [hr]
  have h2 : selectBestMethod pNoMin sBarra 172 =
      { value := JsVal.num 7.5, method := "estimativa_temperatura"
        quality := "baixa"
        parameters := ["temperatura_estimada", "regiao"] } := by
    unfold selectBestMethod
    rw [stage1_eq, stage3_after_stage2]
    have h2 : stage2 pNoMin sBarra 172 initState = initState := by
      unfold stage2 pNoMin
      simp [initState]
    rw [h2]
    have h4 : stage4 pNoMin initState =
        { method := "estimativa_temperatura", et0Value := JsVal.num (0.3 * 25)
          quality := "baixa"
          usedParams := ["temperatura_estimada", "regiao"] } := by
      unfold stage4 pNoMin
      simp [initState]
    rw [h4]
    norm_num [hr]
  rw [h1, h2]
  exact ⟨rfl, rfl⟩

/-! ### Claim C5: the no-temperature fallback of the two selectors -/

/-- C5 (amended, part_000 selector): for every record with no temperature
data at all (mean, max and min all absent), whatever the humidity,
radiation and wind fields hold, `selectET0CalculationMethod` returns the
fixed default 3.5 mm/day with method `estimativa_padrao` and data quality
`muito_baixa`. -/
theorem selectET0CalculationMethod_no_temps (h r w : Option ℝ) :
    FieldClimateAPI.selectET0CalculationMethod
      { temperatura_media := none, temperatura_maxima := none
        temperatura_minima := none, umidade_relativa := h
        radiacao_solar := r, velocidade_vento := w } =
      { value := JsVal.num 3.5, method := "estimativa_padrao"
        parameters := [], data_quality := "muito_baixa" } := by
  have hr35 : (round ((3.5 : ℝ) * 10) : ℤ) = 35 := by norm_num [round_eq]
  unfold FieldClimateAPI.selectET0CalculationMethod
    FieldClimateAPI.selectET0CalculationMethod.selectFallback
    FieldClimateAPI.selectET0CalculationMethod.selectTemperatureOnly
  cases h <;> cases r <;> cases w <;>
    norm_num [FieldClimateAPI.assessDataQuality, hr35]

/-- C5 (counterexample, et0-calculator.js selector): on a record with no
temperature data at all, `ET0Calculator.selectBestMethod` does NOT return
3.5 / `estimativa_padrao` / `muito_baixa`: its stage-4 fallback substitutes
the default Tmean = 25 and returns 0.3 × 25 = 7.5 with method
`estimativa_temperatura` and quality `baixa`. -/
theorem selectBestMethod_c5_counterexample :
    (selectBestMethod pEmpty sBarra 172).value = JsVal.num 7.5 ∧
    (selectBestMethod pEmpty sBarra 172).method = "estimativa_temperatura" ∧
    (selectBestMethod pEmpty sBarra 172).quality = "baixa" ∧
    (7.5 : ℝ) ≠ 3.5 ∧ "estimativa_temperatura" ≠ "estimativa_padrao" ∧
    "baixa" ≠ "muito_baixa" := by
  rw [selectBestMethod_empty_eval]
  refine ⟨rfl, rfl, rfl, by norm_num, by decide, by decide⟩

/-! ### Claim C7: idempotence of the radiation unit heuristic -/

/-- C7: for every radiation reading up to 11574 (far above any physically
realistic irradiance, since 1000/0.0864 ≈ 11574.07), applying the
`> 1000 ⇒ × 0.0864` unit check twice equals applying it once — a converted
value is never converted a second time, because the post-conversion value
is at most 1000.  (The heuristic would double-convert only for raw readings
above 11574 W/m², which no realistic station produces.) -/
theorem normalizeRadiation_idempotent (rs : ℝ) (hrs : rs ≤ 11574) :
    normalizeRadiation (normalizeRadiation rs) = normalizeRadiation rs ∧
      (1000 < rs → normalizeRadiation rs ≤ 1000) := by
  unfold normalizeRadiation convertSolarRadiationToDaily
  by_cases h : 1000 < rs
  · have hle : rs * 0.0864 ≤ 1000 := by nlinarith
    have hnot : ¬ (1000 < rs * 0.0864) := not_lt.mpr hle
    simp [h, hnot, hle]
  · simp [h]

/-- C7 (witness): the idempotence theorem applied at the concrete converted
reading 8000 W/m² (8000 × 0.0864 = 691.2 ≤ 1000, not converted again). -/
theorem normalizeRadiation_idempotent_witness :
    (8000 : ℝ) ≤ 11574 ∧
      (normalizeRadiation (normalizeRadiation 8000) = normalizeRadiation 8000 ∧
        (1000 < (8000 : ℝ) → normalizeRadiation 8000 ≤ 1000)) :=
  ⟨by norm_num, normalizeRadiation_idempotent 8000 (by norm_num)⟩

/-! ### Claim C9: the caller-level seasonal fallback -/

/-- C9 (amended): whenever the full selector invocation throws, both
`calculateET0` handlers substitute the calendar-month banded constant
(4.5 for months Oct-Mar, 3.0 for Apr-Jun, 2.5 for Jul-Sep, 0-based
`getMonth()`) with method tag `estimativa_sazonal`; the part_000 handler
tags quality `muito_baixa`, but the fieldclimate.js handler tags `baixa`. -/
theorem calculateET0_seasonal_fallback (month : ℕ) :
    (calculateET0PartZero (.error ()) month).method = "estimativa_sazonal" ∧
    (calculateET0PartZero (.error ()) month).data_quality = "muito_baixa" ∧
    (calculateET0Fieldclimate (.error ()) month).method = "estimativa_sazonal" ∧
    (calculateET0Fieldclimate (.error ()) month).data_quality = "baixa" ∧
    (calculateET0PartZero (.error ()) month).value =
      (calculateET0Fieldclimate (.error ()) month).value ∧
    ((calculateET0PartZero (.error ()) month).value = JsVal.num 4.5 ∨
      (calculateET0PartZero (.error ()) month).value = JsVal.num 3.0 ∨
      (calculateET0PartZero (.error ()) month).value = JsVal.num 2.5) := by
  refine ⟨rfl, rfl, rfl, rfl, rfl, ?_⟩
  show JsVal.num (seasonalBand month) = _ ∨ JsVal.num (seasonalBand month) = _ ∨
    JsVal.num (seasonalBand month) = _
  unfold seasonalBand
  split_ifs with h1 h2
  · left; rfl
  · right; left; rfl
  · right; right; rfl

/-- C9 (counterexample): in the fieldclimate.js handler the seasonal
substitute is tagged `data_quality: 'baixa'`, not `muito_baixa` (shown here
for January, month 0, where the band value is 4.5). -/
theorem calculateET0_fieldclimate_quality_baixa :
    (calculateET0Fieldclimate (.error ()) 0).data_quality = "baixa" ∧
    (calculateET0Fieldclimate (.error ()) 0).data_quality ≠ "muito_baixa" ∧
    (calculateET0Fieldclimate (.error ()) 0).value = JsVal.num 4.5 := by
  refine ⟨rfl, by decide, ?_⟩
  show JsVal.num (seasonalBand 0) = JsVal.num 4.5
  norm_num [seasonalBand]

/-! ### Claim C6: no latitude validation in the radiation formula -/

/-- The computation produced an ordinary (non-error) result. -/
def raIsOk : Except Unit JsVal → Bool
  | .ok _ => true
  | .error _ => false

/-- The computation produced an ordinary number (not an error, not `NaN`). -/
def raIsOkNum : Except Unit JsVal → Bool
  | .ok (JsVal.num _) => true
  | _ => false

/-- At latitude 135° (well beyond ±90°) and day 172 the radiation formula
silently returns an ordinary number: `tan(135°) = -1`, so the `acos`
argument is `tan δ` with `|δ| ≤ 0.409 < π/4`, squarely inside `[-1, 1]`. -/
theorem calcRa_at_135_172 :
    ∃ x, calculateExtraterrestrialRadiation (num 135) (num 172) =
      .ok (JsVal.num x) := by
  have hpil : (3.141592 : ℝ) < π := Real.pi_gt_d6
  have h365 : (365 : ℝ) ≠ 0 := by norm_num
  have hπ : (π : ℝ) ≠ 0 := Real.pi_ne_zero
  have hφ : (135 : ℝ) * (π / 180) = π - π / 4 := by ring
  have htan : Real.tan ((135 : ℝ) * (π / 180)) = -1 := by
    rw [hφ, Real.tan_eq_sin_div_cos, Real.sin_pi_sub, Real.cos_pi_sub,
      Real.sin_pi_div_four, Real.cos_pi_div_four, div_neg, div_self ?h]
    case h => positivity
  have hd0abs : |0.409 * Real.sin (2 * π * 172 / 365 - 1.39)| ≤ 0.409 := by
    rw [abs_mul, abs_of_nonneg (by norm_num : (0.409 : ℝ) ≥ 0)]
    have := abs_le.mpr ⟨Real.neg_one_le_sin (2 * π * 172 / 365 - 1.39),
      Real.sin_le_one (2 * π * 172 / 365 - 1.39)⟩
    nlinarith [this]
  have hd := abs_le.mp hd0abs
  have hmemd : 0.409 * Real.sin (2 * π * 172 / 365 - 1.39) ∈
      Set.Ioo (-(π / 2)) (π / 2) := by
    constructor <;> nlinarith [hd.1, hd.2]
  have hmem4 : (π / 4) ∈ Set.Ioo (-(π / 2)) (π / 2) := by
    constructor <;> nlinarith
  have hmemn4 : (-(π / 4)) ∈ Set.Ioo (-(π / 2)) (π / 2) := by
    constructor <;> nlinarith
  have htanhi : Real.tan (0.409 * Real.sin (2 * π * 172 / 365 - 1.39)) < 1 := by
    have := Real.strictMonoOn_tan hmemd hmem4 (by nlinarith [hd.2])
    rwa [Real.tan_pi_div_four] at this
  have htanlo : -1 < Real.tan (0.409 * Real.sin (2 * π * 172 / 365 - 1.39)) := by
    have := Real.strictMonoOn_tan hmemn4 hmemd (by nlinarith [hd.1])
    rwa [Real.tan_neg, Real.tan_pi_div_four] at this
  have hacos : JsVal.jsAcos
      (JsVal.num (Real.tan (0.409 * Real.sin (2 * π * 172 / 365 - 1.39)))) =
      JsVal.num (Real.arccos
        (Real.tan (0.409 * Real.sin (2 * π * 172 / 365 - 1.39)))) := by
    apply jsAcos_num_of_mem <;> nlinarith
  unfold calculateExtraterrestrialRadiation
  simp only [jsMul_num_num, jsSin_num, jsCos_num, jsTan_num, jsNeg_num,
    jsAdd_num_num, jsSub_num_num, JsVal.jsDiv, h365, hπ, if_false, htan,
    neg_neg, one_mul, hacos]
  exact ⟨_, rfl⟩

/-- C6 (amended): `calculateExtraterrestrialRadiation` performs no latitude
validation whatsoever: it never rejects any input (it always returns
normally), and an out-of-range latitude can even yield an ordinary number
rather than `NaN` — at latitude 135°, day 172 the formula silently returns
a plain (physically meaningless) value. -/
theorem calcRa_never_rejects :
    (∀ lat jd : JsVal,
      raIsOk (calculateExtraterrestrialRadiation lat jd) = true) ∧
    raIsOkNum (calculateExtraterrestrialRadiation (num 135) (num 172)) = true := by
  constructor
  · intro lat jd
    rfl
  · obtain ⟨x, hx⟩ := calcRa_at_135_172
    rw [hx]
    rfl

/-- C6 (counterexample): latitude 135 satisfies `|latitude| ≥ 90`, yet
`calculateExtraterrestrialRadiation` neither raises an error nor returns
`NaN` there: at day 172 it silently returns an ordinary number. -/
theorem calcRa_c6_counterexample :
    (90 : ℝ) ≤ |(135 : ℝ)| ∧
    raIsOk (calculateExtraterrestrialRadiation (num 135) (num 172)) = true ∧
    raIsOkNum (calculateExtraterrestrialRadiation (num 135) (num 172)) = true := by
  refine ⟨by norm_num, rfl, ?_⟩
  obtain ⟨x, hx⟩ := calcRa_at_135_172
  rw [hx]
  rfl

/-! ### Claim C8: the selector depends on the wall clock through
`getJulianDay()` -/

/-- The real-number value of `calculateExtraterrestrialRadiation` on
in-domain inputs (verification helper mirroring the formula). -/
def raReal (lat jd : ℝ) : ℝ :=
  let phi := lat * (π / 180)
  let delta := 0.409 * Real.sin (2 * π * jd / 365 - 1.39)
  let dr := 1 + 0.033 * Real.cos (2 * π * jd / 365)
  let omega_s := Real.arccos (-Real.tan phi * Real.tan delta)
  24 * 60 / π * 0.0820 * dr *
    (omega_s * Real.sin phi * Real.sin delta +
      Real.cos phi * Real.cos delta * Real.sin omega_s)

/-- When the sunset-hour-angle `acos` argument is in range, the embedded
radiation computation returns exactly `raReal`. -/
theorem calcRa_eq_real (lat jd : ℝ)
    (h1 : -1 ≤ -Real.tan (lat * (π / 180)) *
      Real.tan (0.409 * Real.sin (2 * π * jd / 365 - 1.39)))
    (h2 : -Real.tan (lat * (π / 180)) *
      Real.tan (0.409 * Real.sin (2 * π * jd / 365 - 1.39)) ≤ 1) :
    calculateExtraterrestrialRadiation (num lat) (num jd) =
      .ok (JsVal.num (raReal lat jd)) := by
  have h365 : (365 : ℝ) ≠ 0 := by norm_num
  have hπ : (π : ℝ) ≠ 0 := Real.pi_ne_zero
  have hacos := jsAcos_num_of_mem h1 h2
  unfold calculateExtraterrestrialRadiation raReal
  simp only [jsMul_num_num, jsSin_num, jsCos_num, jsTan_num, jsNeg_num,
    jsAdd_num_num, jsSub_num_num, JsVal.jsDiv, h365, hπ, if_false, hacos]

/-- Numeric bounds at the Barra latitude angle `0.0675π ≈ 0.2120575` rad
(12.15° in radians), from the quartic Taylor bounds on sin and cos. -/
theorem phi_facts :
    0.9774 ≤ Real.cos (0.0675 * π) ∧ Real.cos (0.0675 * π) ≤ 0.9777 ∧
    0 ≤ Real.sin (0.0675 * π) ∧ Real.sin (0.0675 * π) ≤ 0.2120576 ∧
    0 ≤ Real.tan (0.0675 * π) ∧ Real.tan (0.0675 * π) ≤ 0.217 := by
  have hπl : (3.141592 : ℝ) < π := Real.pi_gt_d6
  have hπu : π < 3.141593 := Real.pi_lt_d6
  have hx0 : (0 : ℝ) ≤ 0.0675 * π := by nlinarith
  have hx1 : (0.21205746 : ℝ) ≤ 0.0675 * π := by nlinarith
  have hx2 : (0.0675 : ℝ) * π ≤ 0.21205754 := by nlinarith
  have habs : |(0.0675 : ℝ) * π| ≤ 1 := by
    rw [abs_of_nonneg hx0]; nlinarith
  have hsq : ((0.0675 : ℝ) * π) ^ 2 ≤ 0.04496840 := by nlinarith
  have hsqlo : (0.04496833 : ℝ) ≤ (0.0675 * π) ^ 2 := by nlinarith
  have hq : ((0.0675 : ℝ) * π) ^ 4 ≤ 0.0020222 := by nlinarith
  have hq0 : (0 : ℝ) ≤ ((0.0675 : ℝ) * π) ^ 4 := by positivity
  have hcb := abs_le.mp (Real.cos_bound habs)
  rw [abs_of_nonneg hx0] at hcb
  have hcos1 : 0.9774 ≤ Real.cos (0.0675 * π) := by nlinarith [hcb.1]
  have hcos2 : Real.cos (0.0675 * π) ≤ 0.9777 := by nlinarith [hcb.2]
  have hsin0 : 0 ≤ Real.sin (0.0675 * π) :=
    Real.sin_nonneg_of_nonneg_of_le_pi hx0 (by nlinarith)
  have hsin1 : Real.sin (0.0675 * π) ≤ 0.2120576 :=
    le_trans (Real.sin_le hx0) (by nlinarith)
  refine ⟨hcos1, hcos2, hsin0, hsin1, ?_, ?_⟩
  · rw [Real.tan_eq_sin_div_cos]
    exact div_nonneg hsin0 (by linarith)
  · rw [Real.tan_eq_sin_div_cos]
    have hd : Real.sin (0.0675 * π) / Real.cos (0.0675 * π) ≤
        0.2120576 / 0.9774 := by
      apply div_le_div (by norm_num) hsin1 (by norm_num) hcos1
    calc Real.sin (0.0675 * π) / Real.cos (0.0675 * π) ≤ 0.2120576 / 0.9774 := hd
      _ ≤ 0.217 := by norm_num

/-- Numeric bounds on sin, cos and tan of a solar declination smaller than
0.00178 rad. -/
theorem delta_facts (d : ℝ) (hd : |d| ≤ 0.00178) :
    |Real.sin d| ≤ 0.00178 ∧ 0.999996 ≤ Real.cos d ∧ Real.cos d ≤ 1 ∧
    |Real.tan d| ≤ 0.0017801 := by
  have habs1 : |d| ≤ 1 := le_trans hd (by norm_num)
  have hsin : |Real.sin d| ≤ 0.00178 := le_trans (Real.abs_sin_le_abs) hd
  have hsq : d ^ 2 ≤ 0.0000031684 := by
    have h := abs_le.mp hd
    nlinarith [h.1, h.2]
  have hq : d ^ 4 ≤ 0.00000000002 := by nlinarith [sq_nonneg d]
  have hq0 : (0 : ℝ) ≤ d ^ 4 := by positivity
  have hcb := abs_le.mp (Real.cos_bound habs1)
  have habs4 : |d| ^ 4 = d ^ 4 := by
    rw [← abs_pow]
    exact abs_of_nonneg (by positivity)
  rw [habs4] at hcb
  have hcos1 : 0.999996 ≤ Real.cos d := by nlinarith [hcb.1]
  have hcos2 : Real.cos d ≤ 1 := Real.cos_le_one d
  refine ⟨hsin, hcos1, hcos2, ?_⟩
  rw [Real.tan_eq_sin_div_cos, abs_div]
  have hcabs : |Real.cos d| = Real.cos d := abs_of_nonneg (by linarith)
  rw [hcabs]
  have h1 : |Real.sin d| / Real.cos d ≤ 0.00178 / 0.999996 :=
    div_le_div (by norm_num) hsin (by norm_num) hcos1
  calc |Real.sin d| / Real.cos d ≤ 0.00178 / 0.999996 := h1
    _ ≤ 0.0017801 := by norm_num

/-- Master interval bound for the radiation formula at the Barra latitude:
given that the day's declination is below 0.00178 rad and the inverse
Earth-Sun distance factor lies in `[dlo, dhi]`, the `acos` argument is in
range and `raReal` lies in `[36.687·dlo, 36.793·dhi]`. -/
theorem raReal_bounds (jd dlo dhi : ℝ)
    (hδ : |0.409 * Real.sin (2 * π * jd / 365 - 1.39)| ≤ 0.00178)
    (hdrlo : dlo ≤ 1 + 0.033 * Real.cos (2 * π * jd / 365))
    (hdrhi : 1 + 0.033 * Real.cos (2 * π * jd / 365) ≤ dhi)
    (hdlo : 0.99 ≤ dlo) (_hdhi : dhi ≤ 1.01) :
    (-1 ≤ -Real.tan ((-12.15) * (π / 180)) *
        Real.tan (0.409 * Real.sin (2 * π * jd / 365 - 1.39)) ∧
      -Real.tan ((-12.15) * (π / 180)) *
        Real.tan (0.409 * Real.sin (2 * π * jd / 365 - 1.39)) ≤ 1) ∧
    36.687 * dlo ≤ raReal (-12.15) jd ∧
    raReal (-12.15) jd ≤ 36.793 * dhi := by
  have hπl : (3.141592 : ℝ) < π := Real.pi_gt_d6
  have hπu : π < 3.141593 := Real.pi_lt_d6
  obtain ⟨hcosφ1, hcosφ2, hsinφ0, hsinφ1, htanφ0, htanφ1⟩ := phi_facts
  obtain ⟨hsinδ, hcosδ1, hcosδ2, htanδ⟩ :=
    delta_facts (0.409 * Real.sin (2 * π * jd / 365 - 1.39)) hδ
  have hphi : (-12.15 : ℝ) * (π / 180) = -(0.0675 * π) := by ring
  set d : ℝ := 0.409 * Real.sin (2 * π * jd / 365 - 1.39) with hdim
  have htφ : Real.tan ((-12.15) * (π / 180)) = -Real.tan (0.0675 * π) := by
    rw [hphi, Real.tan_neg]
  have harg : -Real.tan ((-12.15) * (π / 180)) * Real.tan d =
      Real.tan (0.0675 * π) * Real.tan d := by rw [htφ, neg_neg]
  have hargabs : |Real.tan (0.0675 * π) * Real.tan d| ≤ 0.000387 := by
    rw [abs_mul, abs_of_nonneg htanφ0]
    have h1 : Real.tan (0.0675 * π) * |Real.tan d| ≤ 0.217 * 0.0017801 :=
      mul_le_mul htanφ1 htanδ (abs_nonneg _) (by norm_num)
    linarith only [h1, show (0.217 : ℝ) * 0.0017801 ≤ 0.000387 from by norm_num]
  have hargpair := abs_le.mp hargabs
  have hdom1 : -1 ≤ -Real.tan ((-12.15) * (π / 180)) * Real.tan d := by
    rw [harg]; linarith only [hargpair.1]
  have hdom2 : -Real.tan ((-12.15) * (π / 180)) * Real.tan d ≤ 1 := by
    rw [harg]; linarith only [hargpair.2]
  have hA2 : (Real.tan (0.0675 * π) * Real.tan d) ^ 2 ≤ 0.00000015 := by
    have h1 : |Real.tan (0.0675 * π) * Real.tan d| ^ 2 ≤ (0.000387 : ℝ) ^ 2 :=
      pow_le_pow_left (abs_nonneg _) hargabs 2
    calc (Real.tan (0.0675 * π) * Real.tan d) ^ 2
        = |Real.tan (0.0675 * π) * Real.tan d| ^ 2 := (sq_abs _).symm
      _ ≤ (0.000387 : ℝ) ^ 2 := h1
      _ ≤ 0.00000015 := by norm_num
  have hω0 : 0 ≤ Real.arccos (Real.tan (0.0675 * π) * Real.tan d) :=
    Real.arccos_nonneg _
  have hωπ : Real.arccos (Real.tan (0.0675 * π) * Real.tan d) ≤ π :=
    Real.arccos_le_pi _
  have hsinω : Real.sin (Real.arccos (Real.tan (0.0675 * π) * Real.tan d)) =
      Real.sqrt (1 - (Real.tan (0.0675 * π) * Real.tan d) ^ 2) :=
    Real.sin_arccos _
  have hsωlo : 0.9999 ≤
      Real.sin (Real.arccos (Real.tan (0.0675 * π) * Real.tan d)) := by
    rw [hsinω]
    have h9 : (0.9999 : ℝ) = Real.sqrt (0.9999 ^ 2) :=
      (Real.sqrt_sq (by norm_num)).symm
    rw [h9]
    apply Real.sqrt_le_sqrt
    linarith only [hA2, show ((0.9999 : ℝ) ^ 2) = 0.99980001 from by norm_num]
  have hsωhi : Real.sin (Real.arccos (Real.tan (0.0675 * π) * Real.tan d)) ≤ 1 :=
    Real.sin_le_one _
  have hsω0 : 0 ≤ Real.sin (Real.arccos (Real.tan (0.0675 * π) * Real.tan d)) :=
    Real.sin_nonneg_of_nonneg_of_le_pi hω0 hωπ
  have hsd := abs_le.mp hsinδ
  have hωs1 : Real.arccos (Real.tan (0.0675 * π) * Real.tan d) *
      Real.sin (0.0675 * π) ≤ 0.666199 := by
    have h1 : Real.arccos (Real.tan (0.0675 * π) * Real.tan d) *
        Real.sin (0.0675 * π) ≤ 3.141593 * 0.2120576 :=
      mul_le_mul (by linarith only [hωπ, hπu]) hsinφ1 hsinφ0 (by norm_num)
    linarith only [h1,
      show (3.141593 : ℝ) * 0.2120576 ≤ 0.666199 from by norm_num]
  have hωs0 : 0 ≤ Real.arccos (Real.tan (0.0675 * π) * Real.tan d) *
      Real.sin (0.0675 * π) := mul_nonneg hω0 hsinφ0
  have hu1 := mul_le_mul_of_nonneg_left hsd.2 hωs0
  have hl1 := mul_le_mul_of_nonneg_left hsd.1 hωs0
  have hu2 : Real.arccos (Real.tan (0.0675 * π) * Real.tan d) *
      Real.sin (0.0675 * π) * 0.00178 ≤ 0.666199 * 0.00178 :=
    mul_le_mul_of_nonneg_right hωs1 (by norm_num)
  have hl2 : 0.666199 * (-0.00178) ≤
      Real.arccos (Real.tan (0.0675 * π) * Real.tan d) *
        Real.sin (0.0675 * π) * (-0.00178) :=
    mul_le_mul_of_nonpos_right hωs1 (by norm_num)
  have hterm : Real.arccos (Real.tan (0.0675 * π) * Real.tan d) *
      (-Real.sin (0.0675 * π)) * Real.sin d =
      -(Real.arccos (Real.tan (0.0675 * π) * Real.tan d) *
        Real.sin (0.0675 * π) * Real.sin d) := by ring
  have ht1lo : -(0.001186 : ℝ) ≤
      Real.arccos (Real.tan (0.0675 * π) * Real.tan d) *
        (-Real.sin (0.0675 * π)) * Real.sin d := by
    rw [hterm]
    linarith only [hu1, hu2,
      show (0.666199 : ℝ) * 0.00178 ≤ 0.001186 from by norm_num]
  have ht1hi : Real.arccos (Real.tan (0.0675 * π) * Real.tan d) *
        (-Real.sin (0.0675 * π)) * Real.sin d ≤ 0.001186 := by
    rw [hterm]
    linarith only [hl1, hl2,
      show -(0.001186 : ℝ) ≤ 0.666199 * (-0.00178) from by norm_num]
  have hp1lo : (0.9774 : ℝ) * 0.999996 ≤
      Real.cos (0.0675 * π) * Real.cos d :=
    mul_le_mul hcosφ1 hcosδ1 (by norm_num) (by linarith only [hcosφ1])
  have hp1hi : Real.cos (0.0675 * π) * Real.cos d ≤ 0.9777 * 1 :=
    mul_le_mul hcosφ2 hcosδ2 (by linarith only [hcosδ1]) (by norm_num)
  have ht2lo : (0.97729 : ℝ) ≤ Real.cos (0.0675 * π) * Real.cos d *
      Real.sin (Real.arccos (Real.tan (0.0675 * π) * Real.tan d)) := by
    have h1 : (0.9774 : ℝ) * 0.999996 * 0.9999 ≤
        Real.cos (0.0675 * π) * Real.cos d *
          Real.sin (Real.arccos (Real.tan (0.0675 * π) * Real.tan d)) :=
      mul_le_mul hp1lo hsωlo (by norm_num)
        (mul_nonneg (by linarith only [hcosφ1]) (by linarith only [hcosδ1]))
    linarith only [h1,
      show (0.97729 : ℝ) ≤ 0.9774 * 0.999996 * 0.9999 from by norm_num]
  have ht2hi : Real.cos (0.0675 * π) * Real.cos d *
      Real.sin (Real.arccos (Real.tan (0.0675 * π) * Real.tan d)) ≤
        0.9777 := by
    have h1 : Real.cos (0.0675 * π) * Real.cos d *
        Real.sin (Real.arccos (Real.tan (0.0675 * π) * Real.tan d)) ≤
          0.9777 * 1 * 1 :=
      mul_le_mul hp1hi hsωhi hsω0 (by norm_num)
    linarith only [h1]
  have hBlo : (0.9761 : ℝ) ≤
      Real.arccos (Real.tan (0.0675 * π) * Real.tan d) *
          (-Real.sin (0.0675 * π)) * Real.sin d +
        Real.cos (0.0675 * π) * Real.cos d *
          Real.sin (Real.arccos (Real.tan (0.0675 * π) * Real.tan d)) := by
    linarith only [ht1lo, ht2lo]
  have hBhi : Real.arccos (Real.tan (0.0675 * π) * Real.tan d) *
          (-Real.sin (0.0675 * π)) * Real.sin d +
        Real.cos (0.0675 * π) * Real.cos d *
          Real.sin (Real.arccos (Real.tan (0.0675 * π) * Real.tan d)) ≤
      0.9789 := by
    linarith only [ht1hi, ht2hi]
  have hclo : (37.58601 : ℝ) ≤ 24 * 60 / π * 0.0820 := by
    rw [div_mul_eq_mul_div, le_div_iff Real.pi_pos]
    linarith only [hπu]
  have hchi : (24 : ℝ) * 60 / π * 0.0820 ≤ 37.58605 := by
    rw [div_mul_eq_mul_div, div_le_iff Real.pi_pos]
    linarith only [hπl]
  have hdr0 : (0 : ℝ) < 1 + 0.033 * Real.cos (2 * π * jd / 365) := by
    linarith only [hdrlo, hdlo]
  have hc0 : (0 : ℝ) ≤ 24 * 60 / π * 0.0820 := by
    linarith only [hclo]
  have hform : raReal (-12.15) jd =
      24 * 60 / π * 0.0820 * (1 + 0.033 * Real.cos (2 * π * jd / 365)) *
        (Real.arccos (Real.tan (0.0675 * π) * Real.tan d) *
            (-Real.sin (0.0675 * π)) * Real.sin d +
          Real.cos (0.0675 * π) * Real.cos d *
            Real.sin (Real.arccos (Real.tan (0.0675 * π) * Real.tan d))) := by
    simp only [raReal, hphi, Real.sin_neg, Real.cos_neg, Real.tan_neg, neg_neg,
      ← hdim]
  have hcr_lo : (37.58601 : ℝ) * dlo ≤
      24 * 60 / π * 0.0820 * (1 + 0.033 * Real.cos (2 * π * jd / 365)) :=
    mul_le_mul hclo hdrlo (by linarith only [hdlo]) hc0
  have hcr_hi : 24 * 60 / π * 0.0820 *
      (1 + 0.033 * Real.cos (2 * π * jd / 365)) ≤ 37.58605 * dhi :=
    mul_le_mul hchi hdrhi (le_of_lt hdr0) (by norm_num)
  have hcr0 : (0 : ℝ) ≤ 24 * 60 / π * 0.0820 *
      (1 + 0.033 * Real.cos (2 * π * jd / 365)) :=
    mul_nonneg hc0 (le_of_lt hdr0)
  have hdhi0 : (0 : ℝ) ≤ dhi := by linarith only [hdrlo, hdrhi, hdlo]
  refine ⟨⟨hdom1, hdom2⟩, ?_, ?_⟩
  · rw [hform]
    have h1 : (37.58601 : ℝ) * dlo * 0.9761 ≤
        24 * 60 / π * 0.0820 * (1 + 0.033 * Real.cos (2 * π * jd / 365)) *
          (Real.arccos (Real.tan (0.0675 * π) * Real.tan d) *
              (-Real.sin (0.0675 * π)) * Real.sin d +
            Real.cos (0.0675 * π) * Real.cos d *
              Real.sin (Real.arccos (Real.tan (0.0675 * π) * Real.tan d))) :=
      mul_le_mul hcr_lo hBlo (by norm_num) hcr0
    linarith only [h1, hdlo]
  · rw [hform]
    have h1 : 24 * 60 / π * 0.0820 * (1 + 0.033 * Real.cos (2 * π * jd / 365)) *
          (Real.arccos (Real.tan (0.0675 * π) * Real.tan d) *
              (-Real.sin (0.0675 * π)) * Real.sin d +
            Real.cos (0.0675 * π) * Real.cos d *
              Real.sin (Real.arccos (Real.tan (0.0675 * π) * Real.tan d))) ≤
        37.58605 * dhi * 0.9789 :=
      mul_le_mul hcr_hi hBhi (by linarith only [hBlo])
        (mul_nonneg (by norm_num) hdhi0)
    linarith only [h1, hdhi0]

/-- Day 81: the declination argument is within 0.0044 rad of a sine zero,
so the declination itself is below 0.00178 rad. -/
theorem delta81_small :
    |0.409 * Real.sin (2 * π * 81 / 365 - 1.39)| ≤ 0.00178 := by
  have hπl : (3.141592 : ℝ) < π := Real.pi_gt_d6
  have hπu : π < 3.141593 := Real.pi_lt_d6
  have habs : |2 * π * 81 / 365 - 1.39| ≤ 0.0043509 := by
    rw [abs_le]
    constructor <;> nlinarith
  have hs : |Real.sin (2 * π * 81 / 365 - 1.39)| ≤ 0.0043509 :=
    le_trans Real.abs_sin_le_abs habs
  rw [abs_mul, abs_of_nonneg (by norm_num : (0.409 : ℝ) ≥ 0)]
  linarith only [hs]

/-- Day 81: bounds on the inverse Earth-Sun distance factor via the
reduction `cos(162π/365) = sin(41π/730)` and the quartic Taylor bound. -/
theorem dr81_bounds :
    1.005790 ≤ 1 + 0.033 * Real.cos (2 * π * 81 / 365) ∧
    1 + 0.033 * Real.cos (2 * π * 81 / 365) ≤ 1.005795 := by
  have hπl : (3.141592 : ℝ) < π := Real.pi_gt_d6
  have hπu : π < 3.141593 := Real.pi_lt_d6
  have hred : Real.cos (2 * π * 81 / 365) = Real.sin (41 * π / 730) := by
    rw [← Real.sin_pi_div_two_sub]
    ring_nf
  have hs0 : (0 : ℝ) ≤ 41 * π / 730 := by positivity
  have hs1 : (0.1764455 : ℝ) ≤ 41 * π / 730 := by nlinarith
  have hs2 : (41 : ℝ) * π / 730 ≤ 0.1764457 := by nlinarith
  have habs : |(41 : ℝ) * π / 730| ≤ 1 := by
    rw [abs_of_nonneg hs0]
    nlinarith
  have hsb := abs_le.mp (Real.sin_bound habs)
  rw [abs_of_nonneg hs0] at hsb
  have hsq_hi : ((41 : ℝ) * π / 730) ^ 2 ≤ 0.0311331 := by nlinarith
  have hsq_lo : (0.0311330 : ℝ) ≤ ((41 : ℝ) * π / 730) ^ 2 := by nlinarith
  have hcb3 : ((41 : ℝ) * π / 730) ^ 3 ≤ 0.0054934 := by
    nlinarith [mul_le_mul hsq_hi hs2 hs0 (by norm_num : (0:ℝ) ≤ 0.0311331)]
  have hcb3lo : (0.0054931 : ℝ) ≤ ((41 : ℝ) * π / 730) ^ 3 := by
    nlinarith [mul_le_mul hsq_lo hs1 (by norm_num) (by positivity : (0:ℝ) ≤ ((41:ℝ) * π / 730) ^ 2)]
  have hcb4 : ((41 : ℝ) * π / 730) ^ 4 ≤ 0.0009694 := by
    nlinarith [mul_le_mul hcb3 hs2 hs0 (by norm_num : (0:ℝ) ≤ 0.0054934)]
  have hcb40 : (0 : ℝ) ≤ ((41 : ℝ) * π / 730) ^ 4 := by positivity
  have hsinlo : (0.1754794 : ℝ) ≤ Real.sin (41 * π / 730) := by
    linarith only [hsb.1, hs1, hcb3, hcb4]
  have hsinhi : Real.sin (41 * π / 730) ≤ 0.1755807 := by
    linarith only [hsb.2, hs2, hcb3lo, hcb4]
  rw [hred]
  constructor <;> linarith only [hsinlo, hsinhi]

/-- Day 263: the declination argument is within 0.0043 rad of `π`, so the
declination is below 0.00178 rad. -/
theorem delta263_small :
    |0.409 * Real.sin (2 * π * 263 / 365 - 1.39)| ≤ 0.00178 := by
  have hπl : (3.141592 : ℝ) < π := Real.pi_gt_d6
  have hπu : π < 3.141593 := Real.pi_lt_d6
  have hrw : 2 * π * 263 / 365 - 1.39 = (161 * π / 365 - 1.39) + π := by ring
  have hsin : Real.sin (2 * π * 263 / 365 - 1.39) =
      -Real.sin (161 * π / 365 - 1.39) := by
    rw [hrw, Real.sin_add_pi]
  have habs : |161 * π / 365 - 1.39| ≤ 0.0042567 := by
    rw [abs_le]
    constructor <;> nlinarith
  have hs : |Real.sin (161 * π / 365 - 1.39)| ≤ 0.0042567 :=
    le_trans Real.abs_sin_le_abs habs
  rw [hsin, abs_mul, abs_neg, abs_of_nonneg (by norm_num : (0.409 : ℝ) ≥ 0)]
  linarith only [hs]

/-- Day 263: bounds on the inverse Earth-Sun distance factor via the
reduction `cos(526π/365) = -sin(43π/730)` and the quartic Taylor bound. -/
theorem dr263_bounds :
    0.993926 ≤ 1 + 0.033 * Real.cos (2 * π * 263 / 365) ∧
    1 + 0.033 * Real.cos (2 * π * 263 / 365) ≤ 0.993931 := by
  have hπl : (3.141592 : ℝ) < π := Real.pi_gt_d6
  have hπu : π < 3.141593 := Real.pi_lt_d6
  have hrw : 2 * π * 263 / 365 = 161 * π / 365 + π := by ring
  have hred : Real.cos (2 * π * 263 / 365) = -Real.sin (43 * π / 730) := by
    rw [hrw, Real.cos_add_pi, ← Real.sin_pi_div_two_sub]
    norm_num
    ring_nf
  have hs0 : (0 : ℝ) ≤ 43 * π / 730 := by positivity
  have hs1 : (0.1850526 : ℝ) ≤ 43 * π / 730 := by nlinarith
  have hs2 : (43 : ℝ) * π / 730 ≤ 0.1850528 := by nlinarith
  have habs : |(43 : ℝ) * π / 730| ≤ 1 := by
    rw [abs_of_nonneg hs0]
    nlinarith
  have hsb := abs_le.mp (Real.sin_bound habs)
  rw [abs_of_nonneg hs0] at hsb
  have hsq_hi : ((43 : ℝ) * π / 730) ^ 2 ≤ 0.0342446 := by nlinarith
  have hsq_lo : (0.0342444 : ℝ) ≤ ((43 : ℝ) * π / 730) ^ 2 := by nlinarith
  have hcb3 : ((43 : ℝ) * π / 730) ^ 3 ≤ 0.0063372 := by
    nlinarith [mul_le_mul hsq_hi hs2 hs0 (by norm_num : (0:ℝ) ≤ 0.0342446)]
  have hcb3lo : (0.0063369 : ℝ) ≤ ((43 : ℝ) * π / 730) ^ 3 := by
    nlinarith [mul_le_mul hsq_lo hs1 (by norm_num) (by positivity : (0:ℝ) ≤ ((43:ℝ) * π / 730) ^ 2)]
  have hcb4 : ((43 : ℝ) * π / 730) ^ 4 ≤ 0.0011727 := by
    nlinarith [mul_le_mul hcb3 hs2 hs0 (by norm_num : (0:ℝ) ≤ 0.0063372)]
  have hcb40 : (0 : ℝ) ≤ ((43 : ℝ) * π / 730) ^ 4 := by positivity
  have hsinlo : (0.1839350 : ℝ) ≤ Real.sin (43 * π / 730) := by
    linarith only [hsb.1, hs1, hcb3, hcb4]
  have hsinhi : Real.sin (43 * π / 730) ≤ 0.1840581 := by
    linarith only [hsb.2, hs2, hcb3lo, hcb4]
  rw [hred]
  constructor <;> linarith only [hsinlo, hsinhi]

/-- Scenario B of the specification: Tmax = 32, Tmin = 20, nothing else. -/
def pScenarioB : Params :=
  { temperatura_maxima := some 32, temperatura_minima := some 20
    umidade_relativa_max := none, umidade_relativa_min := none
    umidade_relativa_med := none, radiacao_solar := none
    velocidade_vento_2m := none, pressao_atmosferica := none }

/-- On Scenario B the selector runs the Hargreaves stage with the clock's
day of year, and the value field is the clamped, 2-decimal rounding of
`0.0023 · (Tmean + 17.8) · √(Tmax − Tmin) · Ra · 0.19`. -/
theorem selectBestMethod_scenarioB_value (jd R : ℝ)
    (hok : calculateExtraterrestrialRadiation (num (-12.15)) (num jd) =
      .ok (JsVal.num R)) :
    (selectBestMethod pScenarioB sBarra jd).value =
      JsVal.num (max 0 ((round ((max 0 (0.0023 * ((32 + 20) / 2 + 17.8) *
        Real.sqrt (32 - 20) * R * 0.19)) * 100) : ℤ) / 100)) := by
  have hlat : jsOr (toJs sBarra.latitude) (num (-12.15)) = num (-12.15) := by
    simp only [sBarra, toJs_some]
    exact jsOr_num_of_ne _ (by norm_num)
  have hdiv : JsVal.jsDiv (num ((32 : ℝ) + 20)) (num 2) = num (((32 : ℝ) + 20) / 2) :=
    jsDiv_num_num_of_ne _ _ (by norm_num)
  have hsq : JsVal.jsSqrt (num ((32 : ℝ) - 20)) = num (Real.sqrt ((32 : ℝ) - 20)) :=
    jsSqrt_num_of_nonneg (by norm_num)
  have h2 : stage2 pScenarioB sBarra jd initState =
      { method := "hargreaves_samani"
        et0Value := JsVal.num (max 0 (0.0023 * ((32 + 20) / 2 + 17.8) *
          Real.sqrt (32 - 20) * R * 0.19))
        quality := "media"
        usedParams := ["temperatura_maxima", "temperatura_minima",
          "latitude"] } := by
    have h32 : (32 : ℝ) ≠ 0 := by norm_num
    have h20 : (20 : ℝ) ≠ 0 := by norm_num
    simp [stage2, pScenarioB, initState, hlat, h32, h20,
      calculateHargreavesSamani, hok, hdiv, hsq, Bind.bind, Except.bind,
      pure, Except.pure]
  unfold selectBestMethod
  rw [stage1_eq, stage3_after_stage2, h2]
  have hguard : ¬("hargreaves_samani" = "" ∨ "media" = "muito_baixa") := by
    decide
  rw [stage4_of_guard_false _ _ hguard]
  simp

set_option maxHeartbeats 1600000 in
/-- C8 (counterexample): the selector is NOT clock-independent outside the
seasonal fallback.  With identical parameters (Scenario B: Tmax = 32,
Tmin = 20) and identical station metadata, the Hargreaves stage reads the
current day of year through `getJulianDay()`, and the results on day 81
and day 263 differ: Ra(day 81) ≥ 36.90 while Ra(day 263) ≤ 36.57, a gap
that survives the 2-decimal rounding of the value field. -/
theorem selectBestMethod_c8_counterexample :
    selectBestMethod pScenarioB sBarra 81 ≠
      selectBestMethod pScenarioB sBarra 263 := by
  obtain ⟨⟨hd1a, hd1b⟩, hlo81, _⟩ :=
    raReal_bounds 81 1.005790 1.005795 delta81_small dr81_bounds.1
      dr81_bounds.2 (by norm_num) (by norm_num)
  obtain ⟨⟨hd2a, hd2b⟩, hlo263, hhi263⟩ :=
    raReal_bounds 263 0.993926 0.993931 delta263_small dr263_bounds.1
      dr263_bounds.2 (by norm_num) (by norm_num)
  have hok81 := calcRa_eq_real (-12.15) 81 hd1a hd1b
  have hok263 := calcRa_eq_real (-12.15) 263 hd2a hd2b
  have hv81 := selectBestMethod_scenarioB_value 81 _ hok81
  have hv263 := selectBestMethod_scenarioB_value 263 _ hok263
  have hR81 : 36.8994 ≤ raReal (-12.15) 81 := by linarith only [hlo81]
  have hR263hi : raReal (-12.15) 263 ≤ 36.5698 := by linarith only [hhi263]
  have hR263lo : 0 ≤ raReal (-12.15) 263 := by linarith only [hlo263]
  have hsqlo : (3.4641 : ℝ) ≤ Real.sqrt (32 - 20) := by
    have h : ((3.4641 : ℝ)) = Real.sqrt (3.4641 ^ 2) :=
      (Real.sqrt_sq (by norm_num)).symm
    rw [h]
    exact Real.sqrt_le_sqrt (by norm_num)
  have hsqhi : Real.sqrt ((32 : ℝ) - 20) ≤ 3.46411 := by
    have h : ((3.46411 : ℝ)) = Real.sqrt (3.46411 ^ 2) :=
      (Real.sqrt_sq (by norm_num)).symm
    rw [h]
    exact Real.sqrt_le_sqrt (by norm_num)
  have hsq0 : 0 ≤ Real.sqrt ((32 : ℝ) - 20) := Real.sqrt_nonneg _
  set E81 : ℝ := 0.0023 * ((32 + 20) / 2 + 17.8) * Real.sqrt (32 - 20) *
    raReal (-12.15) 81 * 0.19 with hE81def
  set E263 : ℝ := 0.0023 * ((32 + 20) / 2 + 17.8) * Real.sqrt (32 - 20) *
    raReal (-12.15) 263 * 0.19 with hE263def
  have hprod81 : (3.4641 : ℝ) * 36.8994 ≤
      Real.sqrt (32 - 20) * raReal (-12.15) 81 :=
    mul_le_mul hsqlo hR81 (by norm_num) hsq0
  have hprod263 : Real.sqrt ((32 : ℝ) - 20) * raReal (-12.15) 263 ≤
      3.46411 * 36.5698 :=
    mul_le_mul hsqhi hR263hi hR263lo (by norm_num)
  have hE81lo : 2.4466 ≤ E81 := by
    rw [hE81def]
    nlinarith [hprod81]
  have hE263hi : E263 ≤ 2.4248 := by
    rw [hE263def]
    nlinarith [hprod263]
  have hE81nn : 0 ≤ E81 := by
    rw [hE81def]
    nlinarith [mul_nonneg hsq0 (le_trans (by norm_num) hR81)]
  have hE263nn : 0 ≤ E263 := by
    rw [hE263def]
    nlinarith [mul_nonneg hsq0 hR263lo]
  have hm81 : max 0 E81 = E81 := max_eq_right hE81nn
  have hm263 : max 0 E263 = E263 := max_eq_right hE263nn
  have hr81 := abs_le.mp (abs_sub_round (E81 * 100))
  have hr263 := abs_le.mp (abs_sub_round (E263 * 100))
  have h1 : E81 * 100 - 1 / 2 ≤ ((round (E81 * 100) : ℤ) : ℝ) := by
    linarith only [hr81.2]
  have h2 : ((round (E263 * 100) : ℤ) : ℝ) ≤ E263 * 100 + 1 / 2 := by
    linarith only [hr263.1]
  have hpos81 : (0 : ℝ) < ((round (E81 * 100) : ℤ) : ℝ) / 100 := by
    linarith only [h1, hE81lo]
  have hpos263 : (0 : ℝ) ≤ ((round (E263 * 100) : ℤ) : ℝ) / 100 := by
    have h0 : (0 : ℝ) ≤ E263 * 100 := by linarith only [hE263nn]
    have hmono : round (0 : ℝ) ≤ round (E263 * 100) := by
      rw [round_eq, round_eq]
      exact Int.floor_mono (by linarith only [h0])
    have : (0 : ℤ) ≤ round (E263 * 100) := by
      simpa using hmono
    have hcast : (0 : ℝ) ≤ ((round (E263 * 100) : ℤ) : ℝ) := by
      exact_mod_cast this
    linarith only [hcast]
  have hgap : ((round (E263 * 100) : ℤ) : ℝ) / 100 <
      ((round (E81 * 100) : ℤ) : ℝ) / 100 := by
    linarith only [h1, h2, hE81lo, hE263hi]
  intro heq
  have hval := congrArg SelectResult.value heq
  rw [hv81, hv263, hm81, hm263] at hval
  have hmax81 : max (0 : ℝ) (((round (E81 * 100) : ℤ) : ℝ) / 100) =
      ((round (E81 * 100) : ℤ) : ℝ) / 100 := max_eq_right (le_of_lt hpos81)
  have hmax263 : max (0 : ℝ) (((round (E263 * 100) : ℤ) : ℝ) / 100) =
      ((round (E263 * 100) : ℤ) : ℝ) / 100 := max_eq_right hpos263
  rw [hmax81, hmax263] at hval
  have := JsVal.num.inj hval
  linarith only [this, hgap]

/-- C8 (amended): for a fixed day of year the selector is a pure function
of its inputs — two calls with equal parameter records, equal station
metadata and equal `getJulianDay()` readings return identical results.
The clock-dependence refuted above enters only through the day-of-year
argument. -/
theorem selectBestMethod_deterministic (p1 p2 : Params) (s1 s2 : StationInfo)
    (j1 j2 : ℝ) (hp : p1 = p2) (hs : s1 = s2) (hj : j1 = j2) :
    selectBestMethod p1 s1 j1 = selectBestMethod p2 s2 j2 := by
  rw [hp, hs, hj]

/-- Witness for `selectBestMethod_deterministic` at Scenario B, day 81. -/
theorem selectBestMethod_deterministic_witness :
    selectBestMethod pScenarioB sBarra 81 =
      selectBestMethod pScenarioB sBarra 81 :=
  selectBestMethod_deterministic pScenarioB pScenarioB sBarra sBarra 81 81
    rfl rfl rfl
